import Mathlib

/-!
SMS gateway: provider selection and configuration validation.

A shallow embedding of `pkg/lib/config/sms_provider.go` (the configuration
model, its JSON schemas and its `Validate` checks), `pkg/lib/sms/selector.go`
(`GetClientNameByMatch`), `pkg/lib/sms/service.go` (`SMSService.Send`),
`pkg/lib/sms/accessyou/smsclient.go` and `pkg/handler/api.go`, followed by the
properties proved about them.

Conventions of the embedding:

* a Go slice is a `List`; a `for i, x := range xs` loop is a structural
  recursion over the list that carries the index `i`;
* the `validation.Context` of the authgear validation library is a location
  (the list of path components given to `Child`) together with a shared error
  collector; the collector is threaded explicitly through every check as a
  `List ValidationError` to which `EmitErrorMessage` appends;
* a Go panic is the value `none` of an `Option` result; a Go `(value, error)`
  result is an `Except`.
-/

set_option autoImplicit false

namespace SmsGateway

/-! ## Configuration model (`pkg/lib/config/sms_provider.go`) -/

/-- Go `type ProviderType string`. The Provider schema does not make `type`
required, so a decoded provider may carry a string outside the four constants
(the empty string when the key is absent). -/
abbrev ProviderType := String

def ProviderTypeTwilio : ProviderType := "twilio"
def ProviderTypeNexmo : ProviderType := "nexmo"
def ProviderTypeAccessYou : ProviderType := "accessyou"
def ProviderTypeSendCloud : ProviderType := "sendcloud"

structure ProviderConfigTwilio where
  Sender : String
  AccountSID : String
  AuthToken : String
  MessagingServiceSID : String
  deriving DecidableEq, Repr

structure ProviderConfigNexmo where
  Sender : String
  APIKey : String
  APISecret : String
  deriving DecidableEq, Repr

structure ProviderConfigAccessYou where
  Sender : String
  BaseUrl : String
  AccountNo : String
  User : String
  Pwd : String
  deriving DecidableEq, Repr

/-- Modelled from the spec: the declaration of `SendCloudTemplate` is not among
the sources; `ValidateSendCloudConfig` reads its field `TemplateID`, and the
spec calls the catalog a list of template identifiers. -/
structure SendCloudTemplate where
  TemplateID : String
  deriving DecidableEq, Repr

/-- Modelled from the spec: an element of `ByLanguages` (declaration not among
the sources); `ValidateSendCloudConfig` reads its field `TemplateID`. -/
structure SendCloudTemplateAssignmentByLanguage where
  TemplateID : String
  deriving DecidableEq, Repr

/-- Modelled from the spec: an element of `TemplateAssignments` (declaration not
among the sources): a default template id plus per-language overrides. -/
structure SendCloudTemplateAssignment where
  DefaultTemplateID : String
  ByLanguages : List SendCloudTemplateAssignmentByLanguage
  deriving DecidableEq, Repr

/-- Modelled from the spec: `ProviderConfigSendCloud` (declaration not among the
sources), reduced to the two fields `ValidateSendCloudConfig` reads. -/
structure ProviderConfigSendCloud where
  Templates : List SendCloudTemplate
  TemplateAssignments : List SendCloudTemplateAssignment
  deriving DecidableEq, Repr

/-- Go `Provider`. The four vendor blocks are nullable pointers: `none` is
`nil`. The field `Type` is spelled `Typ` (`Type` is reserved). -/
structure Provider where
  Name : String
  Typ : ProviderType
  Twilio : Option ProviderConfigTwilio
  Nexmo : Option ProviderConfigNexmo
  AccessYou : Option ProviderConfigAccessYou
  SendCloud : Option ProviderConfigSendCloud
  deriving DecidableEq, Repr

/-- Go `ProviderSelectorSwitchType` with its three declared constants
`match_phone_number_alpha2`, `match_app_id_and_phone_number_alpha2` and
`default`. The rule schema makes `type` required and restricts it to this
enumeration, so a decoded rule carries one of the three. -/
inductive ProviderSelectorSwitchType where
  | MatchPhoneNumberAlpha2
  | MatchAppIDAndPhoneNumberAlpha2
  | Default
  deriving DecidableEq, Repr

/-- Go `ProviderSelectorSwitchRule` (`Type` is spelled `Typ`). -/
structure ProviderSelectorSwitchRule where
  Typ : ProviderSelectorSwitchType
  UseProvider : String
  PhoneNumberAlpha2 : String
  AppID : String
  deriving DecidableEq, Repr

structure ProviderSelector where
  Switch : List ProviderSelectorSwitchRule
  deriving DecidableEq, Repr

structure SMSProviderConfig where
  Providers : List Provider
  ProviderSelector : ProviderSelector
  deriving DecidableEq, Repr

/-! ## Matchers (`pkg/lib/sms`) -/

/-- The per-request context as `SMSService.Send` builds it
(`MatchContext{AppID: appID, PhoneNumber: string(sendOptions.To)}`). -/
structure MatchContext where
  AppID : String
  PhoneNumber : String
  deriving DecidableEq, Repr

/-- Modelled from the spec: the matcher types are not among the sources (only
`MatcherDefault` is named, by the type switch of `GetClientNameByMatch`).
One matcher per rule kind, carrying the fields its predicate compares. -/
inductive Matcher where
  | MatcherDefault
  | MatcherPhoneNumberAlpha2 (Code : String)
  | MatcherAppIDAndPhoneNumberAlpha2 (AppID : String) (Code : String)
  deriving DecidableEq, Repr

/-- Modelled from the spec: `Matcher.Match` is not among the sources. The
country code of the context is derived from the destination number by an
external phone-number library, here the parameter `alpha2`.
`match_country` holds iff the context's country code equals the rule's;
`match_app_and_country` iff the app id and the country code both do.
A default rule has no predicate; its `Match` is never consulted by
`GetClientNameByMatch`. -/
def Matcher.Match (alpha2 : String → String) (m : Matcher) (ctx : MatchContext) : Bool :=
  match m with
  | Matcher.MatcherDefault => true
  | Matcher.MatcherPhoneNumberAlpha2 code => decide (alpha2 ctx.PhoneNumber = code)
  | Matcher.MatcherAppIDAndPhoneNumberAlpha2 appID code =>
    decide (ctx.AppID = appID) && decide (alpha2 ctx.PhoneNumber = code)

/-- Modelled from the spec: `ParseMatcher` is not among the sources. It turns a
rule into the matcher of its kind. -/
def ParseMatcher (rule : ProviderSelectorSwitchRule) : Matcher :=
  match rule.Typ with
  | ProviderSelectorSwitchType.MatchPhoneNumberAlpha2 =>
    Matcher.MatcherPhoneNumberAlpha2 rule.PhoneNumberAlpha2
  | ProviderSelectorSwitchType.MatchAppIDAndPhoneNumberAlpha2 =>
    Matcher.MatcherAppIDAndPhoneNumberAlpha2 rule.AppID rule.PhoneNumberAlpha2
  | ProviderSelectorSwitchType.Default => Matcher.MatcherDefault

/-! ## Selector (`pkg/lib/sms/selector.go`) -/

/-- The `for ... range c.ProviderSelector.Switch` loop of
`GetClientNameByMatch` together with the code after it; the second argument is
the local variable `defaultClient`. `none` is the panic
`Cannot select provider given ...`. -/
def GetClientNameByMatch.scan (alpha2 : String → String) (ctx : MatchContext) :
    List ProviderSelectorSwitchRule → String → Option String
  | [], defaultClient => if defaultClient = "" then none else some defaultClient
  | providerSelector :: rest, defaultClient =>
    match ParseMatcher providerSelector with
    | Matcher.MatcherDefault =>
      GetClientNameByMatch.scan alpha2 ctx rest providerSelector.UseProvider
    | m =>
      if m.Match alpha2 ctx then some providerSelector.UseProvider
      else GetClientNameByMatch.scan alpha2 ctx rest defaultClient

/-- Go `GetClientNameByMatch`: `defaultClient` starts as the zero string. -/
def GetClientNameByMatch (alpha2 : String → String) (c : SMSProviderConfig)
    (ctx : MatchContext) : Option String :=
  GetClientNameByMatch.scan alpha2 ctx c.ProviderSelector.Switch ""

/-- A rule is a default rule when its type is `default`. -/
def isDefaultRule (r : ProviderSelectorSwitchRule) : Bool :=
  decide (r.Typ = ProviderSelectorSwitchType.Default)

/-- A non-default rule whose matcher matches the context. -/
def matchesContext (alpha2 : String → String) (ctx : MatchContext)
    (r : ProviderSelectorSwitchRule) : Bool :=
  !isDefaultRule r && (ParseMatcher r).Match alpha2 ctx

/-! ## Validation context (authgear `validation` library) -/

/-- One reported validation error: the location it was emitted at (the path
components accumulated by `Child`) and its message. -/
structure ValidationError where
  Location : List String
  Message : String
  deriving DecidableEq, Repr

/-- The location part of `validation.Context`; the error collector shared by a
context and its children is threaded separately. -/
structure Context where
  Location : List String
  deriving DecidableEq, Repr

/-- Go `ctx.Child(path...)`: the context located `path` below `ctx`. -/
def Context.Child (ctx : Context) (path : List String) : Context :=
  { Location := ctx.Location ++ path }

/-- Go `ctx.EmitErrorMessage(msg)`: appends one error, located at `ctx`, to the
collector. -/
def Context.EmitErrorMessage (ctx : Context) (msg : String)
    (errs : List ValidationError) : List ValidationError :=
  errs ++ [{ Location := ctx.Location, Message := msg }]

/-- Go `strconv.Itoa` on a slice index (never negative). -/
def Itoa (i : Nat) : String := toString i

/-- The scan of Go `slices.IndexFunc`, started at index `i`. -/
def IndexFunc.go {α : Type} (f : α → Bool) : List α → Nat → Int
  | [], _ => -1
  | x :: xs, i => if f x then (i : Int) else IndexFunc.go f xs (i + 1)

/-- Go `slices.IndexFunc`: the first index whose element satisfies `f`, or
`-1`. -/
def IndexFunc {α : Type} (s : List α) (f : α → Bool) : Int :=
  IndexFunc.go f s 0

/-! ## Validation (`pkg/lib/config/sms_provider.go`) -/

/-- The loop of `ValidateProviderSelectorUseProvider`, at rule index `i`. -/
def ValidateProviderSelectorUseProvider.loop (providers : List Provider) (ctx : Context) :
    Nat → List ProviderSelectorSwitchRule → List ValidationError → List ValidationError
  | _, [], errs => errs
  | i, switchCase :: rest, errs =>
    let useProvider := switchCase.UseProvider
    let idx := IndexFunc providers (fun p => decide (p.Name = useProvider))
    let errs1 :=
      if idx = -1 then
        (ctx.Child ["provider_selector", "switch", Itoa i, "use_provider"]).EmitErrorMessage
          ("provider " ++ useProvider ++ " not found") errs
      else errs
    ValidateProviderSelectorUseProvider.loop providers ctx (i + 1) rest errs1

/-- Go `SMSProviderConfig.ValidateProviderSelectorUseProvider`. -/
def ValidateProviderSelectorUseProvider (c : SMSProviderConfig) (ctx : Context)
    (errs : List ValidationError) : List ValidationError :=
  ValidateProviderSelectorUseProvider.loop c.Providers ctx 0 c.ProviderSelector.Switch errs

/-- The loop of `ValidateProviderSelectorDefault` with the statement after it:
the early `return` leaves the collector untouched, falling out of the loop
emits the error. -/
def ValidateProviderSelectorDefault.loop (ctx : Context) :
    List ProviderSelectorSwitchRule → List ValidationError → List ValidationError
  | [], errs =>
    (ctx.Child ["provider_selector", "switch"]).EmitErrorMessage
      "provider selector default not found" errs
  | switchCase :: rest, errs =>
    if switchCase.Typ = ProviderSelectorSwitchType.Default then errs
    else ValidateProviderSelectorDefault.loop ctx rest errs

/-- Go `SMSProviderConfig.ValidateProviderSelectorDefault`. -/
def ValidateProviderSelectorDefault (c : SMSProviderConfig) (ctx : Context)
    (errs : List ValidationError) : List ValidationError :=
  ValidateProviderSelectorDefault.loop ctx c.ProviderSelector.Switch errs

/-- The inner loop of `ValidateSendCloudConfig` over `ByLanguages`, at index
`j`. -/
def ValidateSendCloudConfig.byLanguages (templates : List SendCloudTemplate)
    (ctxTemplateAssignment : Context) :
    Nat → List SendCloudTemplateAssignmentByLanguage → List ValidationError →
      List ValidationError
  | _, [], errs => errs
  | j, byLanguage :: rest, errs =>
    let ctxByLanguage := ctxTemplateAssignment.Child ["by_languages", Itoa j]
    let templateID := byLanguage.TemplateID
    let idx := IndexFunc templates (fun t => decide (t.TemplateID = templateID))
    let errs1 :=
      if idx = -1 then
        (ctxByLanguage.Child ["template_id"]).EmitErrorMessage
          ("template_id " ++ templateID ++ " not found") errs
      else errs
    ValidateSendCloudConfig.byLanguages templates ctxTemplateAssignment (j + 1) rest errs1

/-- The outer loop of `ValidateSendCloudConfig` over `TemplateAssignments`, at
index `i`. -/
def ValidateSendCloudConfig.loop (templates : List SendCloudTemplate) (ctx : Context) :
    Nat → List SendCloudTemplateAssignment → List ValidationError → List ValidationError
  | _, [], errs => errs
  | i, templateAssignment :: rest, errs =>
    let ctxTemplateAssignment := ctx.Child ["template_assignments", Itoa i]
    let defaultTemplateID := templateAssignment.DefaultTemplateID
    let idx := IndexFunc templates (fun t => decide (t.TemplateID = defaultTemplateID))
    let errs1 :=
      if idx = -1 then
        (ctxTemplateAssignment.Child ["default_template_id"]).EmitErrorMessage
          ("template_id " ++ defaultTemplateID ++ " not found") errs
      else errs
    let errs2 :=
      ValidateSendCloudConfig.byLanguages templates ctxTemplateAssignment 0
        templateAssignment.ByLanguages errs1
    ValidateSendCloudConfig.loop templates ctx (i + 1) rest errs2

/-- Go `SMSProviderConfig.ValidateSendCloudConfig`. The argument is a pointer:
reading `sendCloudConfig.Templates` through `nil` panics (`none`). -/
def ValidateSendCloudConfig (ctx : Context) (sendCloudConfig : Option ProviderConfigSendCloud)
    (errs : List ValidationError) : Option (List ValidationError) :=
  match sendCloudConfig with
  | none => none
  | some cfg =>
    some (ValidateSendCloudConfig.loop cfg.Templates ctx 0 cfg.TemplateAssignments errs)

/-- The loop of `ValidateSendCloudConfigs`, at provider index `i`. -/
def ValidateSendCloudConfigs.loop (ctx : Context) :
    Nat → List Provider → List ValidationError → Option (List ValidationError)
  | _, [], errs => some errs
  | i, provider :: rest, errs =>
    if provider.Typ = ProviderTypeSendCloud then
      match ValidateSendCloudConfig (ctx.Child ["providers", Itoa i, "sendcloud"])
          provider.SendCloud errs with
      | none => none
      | some errs1 => ValidateSendCloudConfigs.loop ctx (i + 1) rest errs1
    else ValidateSendCloudConfigs.loop ctx (i + 1) rest errs

/-- Go `SMSProviderConfig.ValidateSendCloudConfigs`. -/
def ValidateSendCloudConfigs (c : SMSProviderConfig) (ctx : Context)
    (errs : List ValidationError) : Option (List ValidationError) :=
  ValidateSendCloudConfigs.loop ctx 0 c.Providers errs

/-- Go `SMSProviderConfig.Validate`: the three checks, in order, on one
collector. -/
def Validate (c : SMSProviderConfig) (ctx : Context) (errs : List ValidationError) :
    Option (List ValidationError) :=
  let errs1 := ValidateProviderSelectorUseProvider c ctx errs
  let errs2 := ValidateProviderSelectorDefault c ctx errs1
  ValidateSendCloudConfigs c ctx errs2

/-! ## Vocabulary of the statements -/

/-- The selector's last step: an empty `defaultClient` aborts, any other value
is returned. -/
def fallbackResult (defaultClient : String) : Option String :=
  if defaultClient = "" then none else some defaultClient

/-- The name `useProvider` is the `Name` of some provider. -/
def resolves (providers : List Provider) (useProvider : String) : Bool :=
  providers.any (fun p => decide (p.Name = useProvider))

/-- The template id `templateID` is the `TemplateID` of some template of the
catalog. -/
def inCatalog (templates : List SendCloudTemplate) (templateID : String) : Bool :=
  templates.any (fun t => decide (t.TemplateID = templateID))

/-- Every sendcloud-typed provider carries its `sendcloud` block, as the
Provider schema requires (`if type = sendcloud then required: sendcloud`). -/
def sendCloudBlocksPresent (providers : List Provider) : Bool :=
  providers.all (fun p => decide (p.Typ = ProviderTypeSendCloud → p.SendCloud.isSome = true))

/-! ## Expected errors and sample data -/

def ruleHK : ProviderSelectorSwitchRule :=
  { Typ := ProviderSelectorSwitchType.MatchPhoneNumberAlpha2, UseProvider := "ProviderA",
    PhoneNumberAlpha2 := "HK", AppID := "" }

def ruleAppZSG : ProviderSelectorSwitchRule :=
  { Typ := ProviderSelectorSwitchType.MatchAppIDAndPhoneNumberAlpha2, UseProvider := "ProviderC",
    PhoneNumberAlpha2 := "SG", AppID := "appZ" }

def ruleDefaultB : ProviderSelectorSwitchRule :=
  { Typ := ProviderSelectorSwitchType.Default, UseProvider := "ProviderB",
    PhoneNumberAlpha2 := "", AppID := "" }

def ruleDefaultD : ProviderSelectorSwitchRule :=
  { Typ := ProviderSelectorSwitchType.Default, UseProvider := "ProviderD",
    PhoneNumberAlpha2 := "", AppID := "" }

/-- A default rule whose `use_provider` is the empty string. -/
def ruleDefaultEmpty : ProviderSelectorSwitchRule :=
  { Typ := ProviderSelectorSwitchType.Default, UseProvider := "",
    PhoneNumberAlpha2 := "", AppID := "" }

/-- A stand-in for the phone-number library on the sample numbers. -/
def sampleAlpha2 (phoneNumber : String) : String :=
  if phoneNumber = "+85223456789" then "HK"
  else if phoneNumber = "+6561234567" then "SG"
  else "US"

def ctxHK : MatchContext := { AppID := "X", PhoneNumber := "+85223456789" }
def ctxUS : MatchContext := { AppID := "X", PhoneNumber := "+12025550123" }
def ctxSGappZ : MatchContext := { AppID := "appZ", PhoneNumber := "+6561234567" }
def ctxSGappW : MatchContext := { AppID := "appW", PhoneNumber := "+6561234567" }

def configOf (providers : List Provider) (rules : List ProviderSelectorSwitchRule) :
    SMSProviderConfig :=
  { Providers := providers, ProviderSelector := { Switch := rules } }

/-- The error `ValidateProviderSelectorUseProvider` reports for rule `i`. -/
def useProviderError (ctx : Context) (i : Nat) (r : ProviderSelectorSwitchRule) :
    ValidationError :=
  { Location := ctx.Location ++ ["provider_selector", "switch", Itoa i, "use_provider"],
    Message := "provider " ++ r.UseProvider ++ " not found" }

/-- The error `ValidateProviderSelectorDefault` reports. -/
def defaultNotFoundError (ctx : Context) : ValidationError :=
  { Location := ctx.Location ++ ["provider_selector", "switch"],
    Message := "provider selector default not found" }

/-- The error reported for a dangling `default_template_id` of assignment `i`. -/
def defaultTemplateError (ctx : Context) (i : Nat) (ta : SendCloudTemplateAssignment) :
    ValidationError :=
  { Location := ctx.Location ++ ["template_assignments", Itoa i, "default_template_id"],
    Message := "template_id " ++ ta.DefaultTemplateID ++ " not found" }

/-- The error reported for a dangling `template_id` of entry `j` of the
`by_languages` of assignment `i`. -/
def byLanguageError (ctx : Context) (i j : Nat) (bl : SendCloudTemplateAssignmentByLanguage) :
    ValidationError :=
  { Location :=
      ctx.Location ++ ["template_assignments", Itoa i, "by_languages", Itoa j, "template_id"],
    Message := "template_id " ++ bl.TemplateID ++ " not found" }

/-- The dangling references of assignment `i`, in the order of the claim: the
default template id first, then the `by_languages` entries in index order. -/
def danglingOfAssignment (templates : List SendCloudTemplate) (ctx : Context) (i : Nat)
    (ta : SendCloudTemplateAssignment) : List ValidationError :=
  (if inCatalog templates ta.DefaultTemplateID then [] else [defaultTemplateError ctx i ta])
    ++ (ta.ByLanguages.enum.filter (fun jb => !inCatalog templates jb.2.TemplateID)).map
        (fun jb => byLanguageError ctx i jb.1 jb.2)

/-- The dangling references of one sendcloud block, each checked against that
block's own catalog, located below `ctx`. -/
def danglingOfBlock (ctx : Context) (cfg : ProviderConfigSendCloud) : List ValidationError :=
  cfg.TemplateAssignments.enum.flatMap
    (fun ia => danglingOfAssignment cfg.Templates ctx ia.1 ia.2)

/-- The dangling references of provider `i`: none unless it is of type
`sendcloud`, else those of its block located at `providers/<i>/sendcloud`. -/
def danglingOfProvider (ctx : Context) (i : Nat) (p : Provider) : List ValidationError :=
  if p.Typ = ProviderTypeSendCloud then
    match p.SendCloud with
    | some cfg => danglingOfBlock (ctx.Child ["providers", Itoa i, "sendcloud"]) cfg
    | none => []
  else []

/-- A sendcloud provider named `name` with the given catalog and assignments. -/
def sendCloudProvider (name : String) (templates : List SendCloudTemplate)
    (assignments : List SendCloudTemplateAssignment) : Provider :=
  { Name := name, Typ := ProviderTypeSendCloud, Twilio := none, Nexmo := none,
    AccessYou := none,
    SendCloud := some { Templates := templates, TemplateAssignments := assignments } }

/-- A twilio provider named `name`. -/
def twilioProvider (name : String) : Provider :=
  { Name := name, Typ := ProviderTypeTwilio,
    Twilio := some { Sender := "s", AccountSID := "sid", AuthToken := "token",
                     MessagingServiceSID := "msid" },
    Nexmo := none, AccessYou := none, SendCloud := none }

/-- Two sendcloud providers: the first refers to `T2`, which only the second
one's catalog holds; the second refers to `T2` (present) and `T9` (absent). -/
def sampleProviders : List Provider :=
  [ sendCloudProvider "sc0" [{ TemplateID := "T1" }]
      [{ DefaultTemplateID := "T2", ByLanguages := [{ TemplateID := "T1" }] }],
    twilioProvider "tw",
    sendCloudProvider "sc1" [{ TemplateID := "T2" }]
      [{ DefaultTemplateID := "T2",
         ByLanguages := [{ TemplateID := "T2" }, { TemplateID := "T9" }] }] ]

/-- The root validation context. -/
def rootContext : Context := { Location := [] }

/-- A configuration violating all three invariants: rule 0 names an undefined
provider, there is no default rule, and two template references dangle. -/
def brokenConfig : SMSProviderConfig := configOf sampleProviders [ruleHK]

/-- A configuration the validation accepts: one provider whose `name` is the
empty string (the schema neither requires `name` nor bounds its length) and one
default rule whose `use_provider` is that empty name. -/
def emptyNameConfig : SMSProviderConfig :=
  configOf [twilioProvider ""] [ruleDefaultEmpty]

/-! ## AccessYou client (`pkg/lib/sms/accessyou/smsclient.go`) -/

/-- Go `AccessYouClient`. `Client` (`*http.Client`) and `Logger`
(`*slog.Logger`) are handles of the abstract types `HTTPClient` and
`SlogLogger`. -/
structure AccessYouClient (HTTPClient SlogLogger : Type) where
  BaseUrl : String
  Client : HTTPClient
  AccountNo : String
  User : String
  Pwd : String
  Sender : String
  Logger : SlogLogger

/-- Go `NewAccessYouClient`. -/
def NewAccessYouClient {HTTPClient SlogLogger : Type} (httpClient : HTTPClient)
    (baseUrl : String) (accountNo : String) (user : String) (pwd : String) (sender : String)
    (logger : SlogLogger) : AccessYouClient HTTPClient SlogLogger :=
  let baseUrl := if baseUrl = "" then "http://sms.accessyou-anyip.com" else baseUrl
  { Client := httpClient, BaseUrl := baseUrl, AccountNo := accountNo, User := user,
    Pwd := pwd, Sender := sender, Logger := logger }

/-- The character class of `plusHyphensRegexp`: a plus sign or a hyphen. -/
def plusHyphensClass (ch : Char) : Bool :=
  ch = '+' || ch = '-'

/-- Go `Regexp.ReplaceAllString` for a pattern that is one character class
repeated one or more times (as `plusHyphensRegexp` is): every maximal run of
characters of the class is one match and is replaced by `repl`; the other
characters are copied. `inMatch` tells that the previous character belongs to
the match being consumed. -/
def replaceAllRuns (cls : Char → Bool) (repl : List Char) : Bool → List Char → List Char
  | _, [] => []
  | inMatch, ch :: rest =>
    if cls ch then
      if inMatch then replaceAllRuns cls repl true rest
      else repl ++ replaceAllRuns cls repl true rest
    else ch :: replaceAllRuns cls repl false rest

/-- Go `fixPhoneNumber`: `plusHyphensRegexp.ReplaceAllString(phoneNumber, "")`. -/
def fixPhoneNumber (phoneNumber : String) : String :=
  String.mk (replaceAllRuns plusHyphensClass [] false phoneNumber.data)

/-- The fields of `smsclient.SendOptions` read by the sources (the declaration
is not among them): the destination and the message body. -/
structure SendOptions where
  To : String
  Body : String
  deriving DecidableEq, Repr

/-- The fields of `smsclient.SendResult` set by the sources (the declaration is
not among them). -/
structure SendResult where
  ClientResponse : String
  Success : Bool
  deriving DecidableEq, Repr

/-- The field of the vendor response read by `AccessYouClient.Send`. -/
structure SendSMSResponse where
  Status : String
  deriving DecidableEq, Repr

/-- Go `AccessYouClient.Send`. The vendor call `SendSMS` is not among the
sources and is a parameter: it yields either an error or the raw response
payload with the parsed response. The local `to` is spelled `toNumber`. -/
def AccessYouClient.Send {HTTPClient SlogLogger E : Type}
    (SendSMS : HTTPClient → String → String → String → String → String → String → String →
      Except E (String × SendSMSResponse))
    (n : AccessYouClient HTTPClient SlogLogger) (options : SendOptions) :
    Except E SendResult :=
  let toNumber := fixPhoneNumber options.To
  match SendSMS n.Client n.BaseUrl n.AccountNo n.User n.Pwd n.Sender toNumber options.Body with
  | Except.error err => Except.error err
  | Except.ok (respData, sendSMSResponse) =>
    Except.ok { ClientResponse := respData,
                Success := decide (sendSMSResponse.Status = "100") }

/-! ## HTTP envelope (`pkg/handler/api.go`) -/

/-- Go `type Code string`. -/
abbrev Code := String

def CodeOK : Code := "ok"
def CodeInvalidRequest : Code := "invalid_request"
def CodeUnknownError : Code := "unknown_error"

/-- Go `http.StatusOK`. -/
def StatusOK : Int := 200
/-- Go `http.StatusBadRequest`. -/
def StatusBadRequest : Int := 400
/-- Go `http.StatusInternalServerError`. -/
def StatusInternalServerError : Int := 500

/-- Go `Code.HTTPStatusCode`. -/
def Code.HTTPStatusCode (c : Code) : Int :=
  if c = CodeOK then StatusOK
  else if c = CodeInvalidRequest then StatusBadRequest
  else if c = CodeUnknownError then StatusInternalServerError
  else StatusInternalServerError

/-! ## Dispatch service (`pkg/lib/sms/service.go`) -/

/-- What `SMSService.Send` does to its collaborators, in program order: the
`selected client` log entry and the calls of a client's `Send`. -/
inductive ServiceEvent where
  | LoggerInfo (msg : String) (toNumber : String) (clientName : String)
  | ClientSend (clientName : String) (options : SendOptions)
  deriving DecidableEq, Repr

/-- A registered client (`smsclient.RawClient`): its `Send`, an error of type
`E` or a result. -/
abbrev RawClient (E : Type) := SendOptions → Except E SendResult

/-- Modelled from the spec: `SMSClientMap` and its `GetClientByName` are not
among the sources. The registry maps a provider name to its client; a name
that is not registered is a fatal integrity violation (`none`). -/
abbrev SMSClientMap (E : Type) := String → Option (RawClient E)

/-- Go `SMSService` (`RootConfig` is the configuration handed to
`GetClientNameByMatch`; the logger is represented by the events it receives). -/
structure SMSService (E : Type) where
  RootConfig : SMSProviderConfig
  SMSClientMap : SMSClientMap E

/-- Go `SMSService.Send`: the result of the client's `Send` together with the
events produced, or `none` when the selection or the registry lookup aborts. -/
def SMSService.Send {E : Type} (alpha2 : String → String) (s : SMSService E)
    (appID : String) (sendOptions : SendOptions) :
    Option (Except E SendResult × List ServiceEvent) :=
  match GetClientNameByMatch alpha2 s.RootConfig
      { AppID := appID, PhoneNumber := sendOptions.To } with
  | none => none
  | some clientName =>
    match s.SMSClientMap clientName with
    | none => none
    | some client =>
      some (client sendOptions,
        [ServiceEvent.LoggerInfo "selected client" sendOptions.To clientName,
         ServiceEvent.ClientSend clientName sendOptions])

/-- The number of client `Send` calls among the events. -/
def clientSendCount (events : List ServiceEvent) : Nat :=
  (events.filter (fun e =>
    match e with
    | ServiceEvent.ClientSend _ _ => true
    | ServiceEvent.LoggerInfo _ _ _ => false)).length

/-- A sample vendor call: it fails for an empty body and otherwise echoes the
destination and the body it was given, with status `100` exactly when the
sender is `ok`. -/
def sampleSendSMS (_client : Unit) (_baseUrl _accountNo _user _pwd : String) (sender : String)
    (toNumber : String) (body : String) : Except String (String × SendSMSResponse) :=
  if body = "" then Except.error "empty body"
  else Except.ok (toNumber ++ "|" ++ body, { Status := if sender = "ok" then "100" else "108" })

/-- A sample registry: `ProviderA` always succeeds, `ProviderB` always fails. -/
def sampleClientMap : SMSClientMap String := fun name =>
  if name = "ProviderA" then
    some (fun options => Except.ok { ClientResponse := options.Body, Success := true })
  else if name = "ProviderB" then some (fun _ => Except.error "rejected")
  else none

/-- A sample service routing `HK` numbers to `ProviderA` and the rest to
`ProviderB`. -/
def sampleService : SMSService String :=
  { RootConfig := configOf [] [ruleHK, ruleDefaultB], SMSClientMap := sampleClientMap }

/-! ## JSON documents and the JSON Schema keywords used by the configuration -/

/-- A JSON document, as `yaml.YAMLToJSON` hands it to the schema validator and
to the decoder. The members of an object have distinct keys. -/
inductive Json where
  | null
  | bool (b : Bool)
  | number (n : Int)
  | str (s : String)
  | arr (items : List Json)
  | obj (members : List (String × Json))

/-- The member `key` of an object; `none` when it is absent or the document is
not an object. -/
def Json.get? (j : Json) (key : String) : Option Json :=
  match j with
  | Json.obj members => (members.find? (fun m => decide (m.1 = key))).map (fun m => m.2)
  | _ => none

/-- The JSON Schema keywords that occur in the schemas of
`sms_provider.go`; a schema object is the conjunction (`And`) of its
keywords, and a `$ref` is the referenced schema itself. -/
inductive Schema where
  | Accept
  | TypeString
  | TypeObject
  | TypeArray
  | Enum (values : List String)
  | Const (value : String)
  | Property (key : String) (schema : Schema)
  | NoAdditionalProperties (declared : List String)
  | Required (keys : List String)
  | IfThen (condition : Schema) (consequence : Schema)
  | Items (schema : Schema)
  | MinItems (n : Nat)
  | And (a : Schema) (b : Schema)

/-- JSON Schema validation of a document against a schema. Keywords for
objects (`properties`, `additionalProperties`, `required`) accept every
document that is not an object, keywords for arrays (`items`, `minItems`)
every document that is not an array; `properties` constrains a member only
when it is present; `if`/`then` applies `then` when `if` accepts. -/
def Schema.validate : Schema → Json → Bool
  | Schema.Accept, _ => true
  | Schema.TypeString, j =>
    match j with
    | Json.str _ => true
    | _ => false
  | Schema.TypeObject, j =>
    match j with
    | Json.obj _ => true
    | _ => false
  | Schema.TypeArray, j =>
    match j with
    | Json.arr _ => true
    | _ => false
  | Schema.Enum values, j =>
    match j with
    | Json.str s => values.contains s
    | _ => false
  | Schema.Const value, j =>
    match j with
    | Json.str s => decide (s = value)
    | _ => false
  | Schema.Property key schema, j =>
    match j with
    | Json.obj _ =>
      match j.get? key with
      | some v => schema.validate v
      | none => true
    | _ => true
  | Schema.NoAdditionalProperties declared, j =>
    match j with
    | Json.obj members => members.all (fun m => declared.contains m.1)
    | _ => true
  | Schema.Required keys, j =>
    match j with
    | Json.obj _ => keys.all (fun key => (j.get? key).isSome)
    | _ => true
  | Schema.IfThen condition consequence, j =>
    if condition.validate j then consequence.validate j else true
  | Schema.Items schema, j =>
    match j with
    | Json.arr items => items.all (fun item => schema.validate item)
    | _ => true
  | Schema.MinItems n, j =>
    match j with
    | Json.arr items => decide (n ≤ items.length)
    | _ => true
  | Schema.And a b, j => a.validate j && b.validate j

/-- The conjunction of a list of keywords (also the keyword `allOf`). -/
def Schema.allOf : List Schema → Schema
  | [] => Schema.Accept
  | s :: rest => Schema.And s (Schema.allOf rest)

/-- The keyword `properties`. -/
def Schema.properties (props : List (String × Schema)) : Schema :=
  Schema.allOf (props.map (fun p => Schema.Property p.1 p.2))

/-- The keywords `"type": "object"`, `"additionalProperties": false` and
`"properties"` of a schema object. -/
def Schema.closedObject (props : List (String × Schema)) : Schema :=
  Schema.allOf [Schema.TypeObject, Schema.NoAdditionalProperties (props.map (fun p => p.1)),
    Schema.properties props]

/-- The keywords `"type": "array"`, `"minItems"` and `"items"`. -/
def Schema.arrayOf (minItems : Nat) (items : Schema) : Schema :=
  Schema.allOf [Schema.TypeArray, Schema.MinItems minItems, Schema.Items items]

/-! ## The schemas of `sms_provider.go` -/

/-- Schema `ProviderType`. -/
def SMSProviderConfigSchema.ProviderType : Schema :=
  Schema.allOf [Schema.TypeString, Schema.Enum ["twilio", "nexmo", "accessyou", "sendcloud"]]

/-- Schema `ProviderConfigTwilio`. -/
def SMSProviderConfigSchema.ProviderConfigTwilio : Schema :=
  Schema.allOf
    [Schema.closedObject
      [("sender", Schema.TypeString), ("account_sid", Schema.TypeString),
       ("auth_token", Schema.TypeString), ("message_service_sid", Schema.TypeString)],
     Schema.Required ["sender", "account_sid", "auth_token", "message_service_sid"]]

/-- Schema `ProviderConfigNexmo`. -/
def SMSProviderConfigSchema.ProviderConfigNexmo : Schema :=
  Schema.allOf
    [Schema.closedObject
      [("sender", Schema.TypeString), ("api_key", Schema.TypeString),
       ("api_secret", Schema.TypeString)],
     Schema.Required ["sender", "api_key", "api_secret"]]

/-- Schema `ProviderConfigAccessYou`. -/
def SMSProviderConfigSchema.ProviderConfigAccessYou : Schema :=
  Schema.allOf
    [Schema.closedObject
      [("sender", Schema.TypeString), ("base_url", Schema.TypeString),
       ("accountno", Schema.TypeString), ("user", Schema.TypeString),
       ("pwd", Schema.TypeString)],
     Schema.Required ["sender", "accountno", "user", "pwd"]]

/-- Schema `Provider`. The schema `ProviderConfigSendCloud` it refers to is not
among the sources and is the parameter `sendCloud`. -/
def SMSProviderConfigSchema.Provider (sendCloud : Schema) : Schema :=
  Schema.allOf
    [Schema.closedObject
      [("name", Schema.TypeString),
       ("type", SMSProviderConfigSchema.ProviderType),
       ("twilio", SMSProviderConfigSchema.ProviderConfigTwilio),
       ("nexmo", SMSProviderConfigSchema.ProviderConfigNexmo),
       ("accessyou", SMSProviderConfigSchema.ProviderConfigAccessYou),
       ("sendcloud", sendCloud)],
     Schema.allOf
      [Schema.IfThen (Schema.properties [("type", Schema.Const "twilio")])
        (Schema.Required ["twilio"]),
       Schema.IfThen (Schema.properties [("type", Schema.Const "nexmo")])
        (Schema.Required ["nexmo"]),
       Schema.IfThen (Schema.properties [("type", Schema.Const "accessyou")])
        (Schema.Required ["accessyou"]),
       Schema.IfThen (Schema.properties [("type", Schema.Const "sendcloud")])
        (Schema.Required ["sendcloud"])]]

/-- Schema `ProviderSelectorSwitchType`. -/
def SMSProviderConfigSchema.ProviderSelectorSwitchType : Schema :=
  Schema.allOf
    [Schema.TypeString,
     Schema.Enum ["match_phone_number_alpha2", "match_app_id_and_phone_number_alpha2",
       "default"]]

/-- Schema `ProviderSelectorSwitchRule`; the two `const` values are those of the
source. -/
def SMSProviderConfigSchema.ProviderSelectorSwitchRule : Schema :=
  Schema.allOf
    [Schema.closedObject
      [("type", SMSProviderConfigSchema.ProviderSelectorSwitchType),
       ("use_provider", Schema.TypeString),
       ("phone_number_alpha2", Schema.TypeString),
       ("app_id", Schema.TypeString)],
     Schema.allOf
      [Schema.IfThen (Schema.properties [("type", Schema.Const "phone_number_alpha2")])
        (Schema.Required ["phone_number_alpha2"]),
       Schema.IfThen
        (Schema.properties [("type", Schema.Const "app_id_and_phone_number_alpha2")])
        (Schema.Required ["phone_number_alpha2"])],
     Schema.Required ["type", "use_provider"]]

/-- Schema `ProviderSelector`. -/
def SMSProviderConfigSchema.ProviderSelector : Schema :=
  Schema.allOf
    [Schema.closedObject
      [("switch", Schema.arrayOf 1 SMSProviderConfigSchema.ProviderSelectorSwitchRule)],
     Schema.Required ["switch"]]

/-- Schema `SMSProviderConfig`, the root of the validation. -/
def SMSProviderConfigSchema.SMSProviderConfig (sendCloud : Schema) : Schema :=
  Schema.allOf
    [Schema.closedObject
      [("providers", Schema.arrayOf 1 (SMSProviderConfigSchema.Provider sendCloud)),
       ("provider_selector", SMSProviderConfigSchema.ProviderSelector)],
     Schema.Required ["providers", "provider_selector"]]

/-! ## Decoding (`encoding/json` into the Go structs) -/

/-- Decoding of a `string` field: an absent or `null` member leaves the zero
value, a string sets it, anything else is a decoding error (`none`). -/
def decodeStringField (j : Json) (key : String) : Option String :=
  match j.get? key with
  | none => some ""
  | some Json.null => some ""
  | some (Json.str s) => some s
  | some _ => none

/-- Decoding of a pointer field: an absent or `null` member leaves `nil`. -/
def decodePointerField {α : Type} (decode : Json → Option α) (j : Json) (key : String) :
    Option (Option α) :=
  match j.get? key with
  | none => some none
  | some Json.null => some none
  | some v => (decode v).map some

/-- Decoding of the elements of a JSON array, in order. -/
def decodeAll {α : Type} (decode : Json → Option α) : List Json → Option (List α)
  | [] => some []
  | item :: rest =>
    match decode item, decodeAll decode rest with
    | some x, some xs => some (x :: xs)
    | _, _ => none

/-- Decoding of a slice field: an absent or `null` member leaves the empty
slice. -/
def decodeSliceField {α : Type} (decode : Json → Option α) (j : Json) (key : String) :
    Option (List α) :=
  match j.get? key with
  | none => some []
  | some Json.null => some []
  | some (Json.arr items) => decodeAll decode items
  | some _ => none

def decodeProviderConfigTwilio (j : Json) : Option ProviderConfigTwilio :=
  match j with
  | Json.obj _ =>
    match decodeStringField j "sender", decodeStringField j "account_sid",
        decodeStringField j "auth_token", decodeStringField j "message_service_sid" with
    | some sender, some accountSID, some authToken, some messagingServiceSID =>
      some { Sender := sender, AccountSID := accountSID, AuthToken := authToken,
             MessagingServiceSID := messagingServiceSID }
    | _, _, _, _ => none
  | _ => none

def decodeProviderConfigNexmo (j : Json) : Option ProviderConfigNexmo :=
  match j with
  | Json.obj _ =>
    match decodeStringField j "sender", decodeStringField j "api_key",
        decodeStringField j "api_secret" with
    | some sender, some apiKey, some apiSecret =>
      some { Sender := sender, APIKey := apiKey, APISecret := apiSecret }
    | _, _, _ => none
  | _ => none

def decodeProviderConfigAccessYou (j : Json) : Option ProviderConfigAccessYou :=
  match j with
  | Json.obj _ =>
    match decodeStringField j "sender", decodeStringField j "base_url",
        decodeStringField j "accountno", decodeStringField j "user",
        decodeStringField j "pwd" with
    | some sender, some baseUrl, some accountNo, some user, some pwd =>
      some { Sender := sender, BaseUrl := baseUrl, AccountNo := accountNo, User := user,
             Pwd := pwd }
    | _, _, _, _, _ => none
  | _ => none

/-- Decoding of a `Provider`. The decoding of the `sendcloud` block, whose
struct is not among the sources, is the parameter `decodeSendCloud`. -/
def decodeProvider (decodeSendCloud : Json → Option ProviderConfigSendCloud) (j : Json) :
    Option Provider :=
  match j with
  | Json.obj _ =>
    match decodeStringField j "name", decodeStringField j "type",
        decodePointerField decodeProviderConfigTwilio j "twilio",
        decodePointerField decodeProviderConfigNexmo j "nexmo",
        decodePointerField decodeProviderConfigAccessYou j "accessyou",
        decodePointerField decodeSendCloud j "sendcloud" with
    | some name, some typ, some twilio, some nexmo, some accessYou, some sendCloud =>
      some { Name := name, Typ := typ, Twilio := twilio, Nexmo := nexmo,
             AccessYou := accessYou, SendCloud := sendCloud }
    | _, _, _, _, _, _ => none
  | _ => none

/-- The constant of `ProviderSelectorSwitchType` a string denotes. A string
outside the enumeration, which the rule schema rejects beforehand, has
none. -/
def decodeProviderSelectorSwitchType (s : String) : Option ProviderSelectorSwitchType :=
  if s = "match_phone_number_alpha2" then
    some ProviderSelectorSwitchType.MatchPhoneNumberAlpha2
  else if s = "match_app_id_and_phone_number_alpha2" then
    some ProviderSelectorSwitchType.MatchAppIDAndPhoneNumberAlpha2
  else if s = "default" then some ProviderSelectorSwitchType.Default
  else none

/-- Decoding of a `ProviderSelectorSwitchRule`. -/
def decodeProviderSelectorSwitchRule (j : Json) : Option ProviderSelectorSwitchRule :=
  match j with
  | Json.obj _ =>
    match (decodeStringField j "type").bind decodeProviderSelectorSwitchType,
        decodeStringField j "use_provider", decodeStringField j "phone_number_alpha2",
        decodeStringField j "app_id" with
    | some typ, some useProvider, some phoneNumberAlpha2, some appID =>
      some { Typ := typ, UseProvider := useProvider, PhoneNumberAlpha2 := phoneNumberAlpha2,
             AppID := appID }
    | _, _, _, _ => none
  | _ => none

/-- Decoding of a `ProviderSelector`. -/
def decodeProviderSelector (j : Json) : Option ProviderSelector :=
  match j with
  | Json.obj _ =>
    (decodeSliceField decodeProviderSelectorSwitchRule j "switch").map
      (fun rules => { Switch := rules })
  | _ => none

/-- Decoding of a `SMSProviderConfig`. The member `provider_selector`, a
pointer in Go, is required by the schema; its absence has no decoding here. -/
def decodeSMSProviderConfig (decodeSendCloud : Json → Option ProviderConfigSendCloud)
    (j : Json) : Option SMSProviderConfig :=
  match j with
  | Json.obj _ =>
    match decodeSliceField (decodeProvider decodeSendCloud) j "providers",
        (j.get? "provider_selector").bind decodeProviderSelector with
    | some providers, some providerSelector =>
      some { Providers := providers, ProviderSelector := providerSelector }
    | _, _ => none
  | _ => none

/-- Go `ParseSMSProviderConfigFromYAML` from the JSON document on: schema
validation, decoding, then `Validate` on the root context
(`validation.ValidateValueWithMessage`); the configuration is returned only
when no step fails and `Validate` emits no error. -/
def ParseSMSProviderConfigFromYAML (sendCloudSchema : Schema)
    (decodeSendCloud : Json → Option ProviderConfigSendCloud) (jsonData : Json) :
    Option SMSProviderConfig :=
  if (SMSProviderConfigSchema.SMSProviderConfig sendCloudSchema).validate jsonData then
    match decodeSMSProviderConfig decodeSendCloud jsonData with
    | none => none
    | some config =>
      match Validate config { Location := [] } [] with
      | some [] => some config
      | _ => none
  else none

/-! ### Sample documents -/

/-- The JSON of a twilio provider named `name`. -/
def twilioProviderJson (name : String) : Json :=
  Json.obj
    [("name", Json.str name), ("type", Json.str "twilio"),
     ("twilio", Json.obj
        [("sender", Json.str "s"), ("account_sid", Json.str "sid"),
         ("auth_token", Json.str "token"), ("message_service_sid", Json.str "msid")])]

/-- A twilio provider that also carries a `nexmo` block. -/
def twoBlockProviderJson : Json :=
  Json.obj
    [("name", Json.str "tw"), ("type", Json.str "twilio"),
     ("twilio", Json.obj
        [("sender", Json.str "s"), ("account_sid", Json.str "sid"),
         ("auth_token", Json.str "token"), ("message_service_sid", Json.str "msid")]),
     ("nexmo", Json.obj
        [("sender", Json.str "s"), ("api_key", Json.str "key"),
         ("api_secret", Json.str "secret")])]

/-- A `match_phone_number_alpha2` rule without `phone_number_alpha2`. -/
def ruleJsonWithoutAlpha2 : Json :=
  Json.obj [("type", Json.str "match_phone_number_alpha2"), ("use_provider", Json.str "tw")]

/-- A `match_app_id_and_phone_number_alpha2` rule with neither `app_id` nor
`phone_number_alpha2`. -/
def ruleJsonWithoutAppID : Json :=
  Json.obj
    [("type", Json.str "match_app_id_and_phone_number_alpha2"),
     ("use_provider", Json.str "tw")]

/-- A `default` rule using provider `tw`. -/
def ruleJsonDefault : Json :=
  Json.obj [("type", Json.str "default"), ("use_provider", Json.str "tw")]

/-- The document of a configuration with the given providers and rules. -/
def configJson (providers : List Json) (rules : List Json) : Json :=
  Json.obj
    [("providers", Json.arr providers),
     ("provider_selector", Json.obj [("switch", Json.arr rules)])]

/-! ## Properties of the selector -/

theorem scan_cons_default (alpha2 : String → String) (ctx : MatchContext)
    (r : ProviderSelectorSwitchRule) (rest : List ProviderSelectorSwitchRule) (d : String)
    (h : isDefaultRule r = true) :
    GetClientNameByMatch.scan alpha2 ctx (r :: rest) d
      = GetClientNameByMatch.scan alpha2 ctx rest r.UseProvider := by
  have ht : r.Typ = ProviderSelectorSwitchType.Default := by simpa [isDefaultRule] using h
  simp [GetClientNameByMatch.scan, ParseMatcher, ht]

theorem scan_cons_match (alpha2 : String → String) (ctx : MatchContext)
    (r : ProviderSelectorSwitchRule) (rest : List ProviderSelectorSwitchRule) (d : String)
    (h : matchesContext alpha2 ctx r = true) :
    GetClientNameByMatch.scan alpha2 ctx (r :: rest) d = some r.UseProvider := by
  cases ht : r.Typ <;>
    simp_all [matchesContext, isDefaultRule, GetClientNameByMatch.scan, ParseMatcher]

theorem scan_cons_skip (alpha2 : String → String) (ctx : MatchContext)
    (r : ProviderSelectorSwitchRule) (rest : List ProviderSelectorSwitchRule) (d : String)
    (hd : isDefaultRule r = false) (h : matchesContext alpha2 ctx r = false) :
    GetClientNameByMatch.scan alpha2 ctx (r :: rest) d
      = GetClientNameByMatch.scan alpha2 ctx rest d := by
  cases ht : r.Typ <;>
    simp_all [matchesContext, isDefaultRule, GetClientNameByMatch.scan, ParseMatcher]

theorem scan_nil (alpha2 : String → String) (ctx : MatchContext) (d : String) :
    GetClientNameByMatch.scan alpha2 ctx [] d = fallbackResult d := by
  simp [GetClientNameByMatch.scan, fallbackResult]

theorem matchesContext_of_default (alpha2 : String → String) (ctx : MatchContext)
    (r : ProviderSelectorSwitchRule) (h : isDefaultRule r = true) :
    matchesContext alpha2 ctx r = false := by
  simp [matchesContext, h]

/-- Scanning a prefix in which no non-default rule matches and whose last
default rule, if any, is overwritten by the default rule `d` that follows. -/
theorem scan_prefix_then_default (alpha2 : String → String) (ctx : MatchContext)
    (d : ProviderSelectorSwitchRule) (post : List ProviderSelectorSwitchRule)
    (hd : isDefaultRule d = true) :
    ∀ (pre : List ProviderSelectorSwitchRule) (d0 : String),
      (∀ r ∈ pre, matchesContext alpha2 ctx r = false) →
      GetClientNameByMatch.scan alpha2 ctx (pre ++ d :: post) d0
        = GetClientNameByMatch.scan alpha2 ctx post d.UseProvider := by
  intro pre
  induction pre with
  | nil => intro d0 _; simpa using scan_cons_default alpha2 ctx d post d0 hd
  | cons r pre ih =>
    intro d0 h
    have hr : matchesContext alpha2 ctx r = false := h r (by simp)
    have hpre : ∀ x ∈ pre, matchesContext alpha2 ctx x = false :=
      fun x hx => h x (by simp [hx])
    cases hdef : isDefaultRule r with
    | true =>
      rw [List.cons_append, scan_cons_default alpha2 ctx r _ d0 hdef]
      exact ih _ hpre
    | false =>
      rw [List.cons_append, scan_cons_skip alpha2 ctx r _ d0 hdef hr]
      exact ih _ hpre

/-- A run of non-default rules either yields its first matching rule or hands
`defaultClient` unchanged to the rules after it. -/
theorem scan_nondefault_append (alpha2 : String → String) (ctx : MatchContext)
    (rest : List ProviderSelectorSwitchRule) :
    ∀ (l : List ProviderSelectorSwitchRule) (d0 : String),
      (∀ r ∈ l, isDefaultRule r = false) →
      GetClientNameByMatch.scan alpha2 ctx (l ++ rest) d0
        = match l.find? (matchesContext alpha2 ctx) with
          | some r => some r.UseProvider
          | none => GetClientNameByMatch.scan alpha2 ctx rest d0 := by
  intro l
  induction l with
  | nil => intro d0 _; simp
  | cons r l ih =>
    intro d0 h
    have hr : isDefaultRule r = false := h r (by simp)
    have hl : ∀ x ∈ l, isDefaultRule x = false := fun x hx => h x (by simp [hx])
    cases hm : matchesContext alpha2 ctx r with
    | true =>
      rw [List.cons_append, scan_cons_match alpha2 ctx r _ d0 hm]
      simp [List.find?, hm]
    | false =>
      rw [List.cons_append, scan_cons_skip alpha2 ctx r _ d0 hr hm, ih d0 hl]
      simp [List.find?, hm]

/-- The scan returns the first rule accepted by `matchesContext`, whatever the
rules before it and whatever `defaultClient` holds. -/
theorem scan_first_match (alpha2 : String → String) (ctx : MatchContext)
    (r : ProviderSelectorSwitchRule) :
    ∀ (rules : List ProviderSelectorSwitchRule) (d0 : String),
      rules.find? (matchesContext alpha2 ctx) = some r →
      GetClientNameByMatch.scan alpha2 ctx rules d0 = some r.UseProvider := by
  intro rules
  induction rules with
  | nil => intro d0 h; simp at h
  | cons x rules ih =>
    intro d0 h
    cases hm : matchesContext alpha2 ctx x with
    | true =>
      have hx : x = r := by simpa [List.find?, hm] using h
      rw [scan_cons_match alpha2 ctx x _ d0 hm, hx]
    | false =>
      have h2 : rules.find? (matchesContext alpha2 ctx) = some r := by
        simpa [List.find?, hm] using h
      cases hdef : isDefaultRule x with
      | true =>
        rw [scan_cons_default alpha2 ctx x _ d0 hdef]
        exact ih _ h2
      | false =>
        rw [scan_cons_skip alpha2 ctx x _ d0 hdef hm]
        exact ih _ h2

/-- A run of rules with no default rule and no matching rule leaves the
decision to `defaultClient`. -/
theorem scan_no_default_no_match (alpha2 : String → String) (ctx : MatchContext) :
    ∀ (rules : List ProviderSelectorSwitchRule) (d0 : String),
      (∀ r ∈ rules, isDefaultRule r = false) →
      (∀ r ∈ rules, matchesContext alpha2 ctx r = false) →
      GetClientNameByMatch.scan alpha2 ctx rules d0 = fallbackResult d0 := by
  intro rules
  induction rules with
  | nil => intro d0 _ _; exact scan_nil alpha2 ctx d0
  | cons x rules ih =>
    intro d0 hd hm
    rw [scan_cons_skip alpha2 ctx x _ d0 (hd x (by simp)) (hm x (by simp))]
    exact ih d0 (fun r hr => hd r (by simp [hr])) (fun r hr => hm r (by simp [hr]))

/-! ### C1 -/

/-- C1: if some non-default rule's matcher matches the context,
`GetClientNameByMatch` returns the `use_provider` of the first such rule in list
order, whatever default rules stand before or after it. -/
theorem C1_first_nondefault_match_wins (alpha2 : String → String) (c : SMSProviderConfig)
    (ctx : MatchContext) (r : ProviderSelectorSwitchRule)
    (h : c.ProviderSelector.Switch.find? (matchesContext alpha2 ctx) = some r) :
    GetClientNameByMatch alpha2 c ctx = some r.UseProvider :=
  scan_first_match alpha2 ctx r c.ProviderSelector.Switch "" h

theorem C1_witness :
    (configOf [] [ruleDefaultD, ruleAppZSG, ruleHK, ruleDefaultB]).ProviderSelector.Switch.find?
        (matchesContext sampleAlpha2 ctxHK) = some ruleHK
    ∧ GetClientNameByMatch sampleAlpha2
        (configOf [] [ruleDefaultD, ruleAppZSG, ruleHK, ruleDefaultB]) ctxHK
        = some "ProviderA" :=
  ⟨by decide, C1_first_nondefault_match_wins sampleAlpha2 _ ctxHK ruleHK (by decide)⟩

/-! ### C2 -/

/-- C2, as stated, fails: the single default rule with an empty `use_provider`
is the last default rule and no non-default rule matches, yet
`GetClientNameByMatch` aborts instead of returning that `use_provider`. -/
theorem C2_counterexample :
    ¬ (∀ (alpha2 : String → String) (c : SMSProviderConfig) (ctx : MatchContext)
        (pre post : List ProviderSelectorSwitchRule) (d : ProviderSelectorSwitchRule),
        c.ProviderSelector.Switch = pre ++ d :: post →
        isDefaultRule d = true →
        (∀ r ∈ post, isDefaultRule r = false) →
        (∀ r ∈ c.ProviderSelector.Switch, matchesContext alpha2 ctx r = false) →
        GetClientNameByMatch alpha2 c ctx = some d.UseProvider) := by
  intro h
  have h1 := h sampleAlpha2 (configOf [] [ruleDefaultEmpty]) ctxHK [] [] ruleDefaultEmpty
    rfl (by decide) (by simp) (by decide)
  revert h1
  decide

/-- C2 (amended): when the rule list contains a default rule and no non-default
rule matches the context, `GetClientNameByMatch` returns the `use_provider` of
the last default rule in list order if that name is not the empty string, and
aborts if it is the empty string. -/
theorem C2_last_default_wins (alpha2 : String → String) (c : SMSProviderConfig)
    (ctx : MatchContext) (pre post : List ProviderSelectorSwitchRule)
    (d : ProviderSelectorSwitchRule)
    (hsplit : c.ProviderSelector.Switch = pre ++ d :: post)
    (hd : isDefaultRule d = true)
    (hlast : ∀ r ∈ post, isDefaultRule r = false)
    (hnomatch : ∀ r ∈ c.ProviderSelector.Switch, matchesContext alpha2 ctx r = false) :
    GetClientNameByMatch alpha2 c ctx
      = if d.UseProvider = "" then none else some d.UseProvider := by
  have hpre : ∀ r ∈ pre, matchesContext alpha2 ctx r = false :=
    fun r hr => hnomatch r (by simp [hsplit, hr])
  have hpost : ∀ r ∈ post, matchesContext alpha2 ctx r = false :=
    fun r hr => hnomatch r (by simp [hsplit, hr])
  unfold GetClientNameByMatch
  rw [hsplit, scan_prefix_then_default alpha2 ctx d post hd pre "" hpre,
    scan_no_default_no_match alpha2 ctx post d.UseProvider hlast hpost]
  rfl

theorem C2_witness :
    GetClientNameByMatch sampleAlpha2
        (configOf [] [ruleDefaultD, ruleHK, ruleDefaultB, ruleAppZSG]) ctxUS
      = some "ProviderB" :=
  C2_last_default_wins sampleAlpha2
    (configOf [] [ruleDefaultD, ruleHK, ruleDefaultB, ruleAppZSG]) ctxUS
    [ruleDefaultD, ruleHK] [ruleAppZSG] ruleDefaultB rfl (by decide) (by decide) (by decide)

/-! ### C3 -/

/-- C3 fails on `emptyNameConfig`: providers and rules are non-empty and
`Validate` emits no error, yet `GetClientNameByMatch` aborts for every match
context instead of returning a provider name. -/
theorem C3_validated_config_aborts :
    emptyNameConfig.Providers ≠ []
    ∧ emptyNameConfig.ProviderSelector.Switch ≠ []
    ∧ Validate emptyNameConfig rootContext [] = some []
    ∧ ∀ (alpha2 : String → String) (ctx : MatchContext),
        GetClientNameByMatch alpha2 emptyNameConfig ctx = none := by
  refine ⟨by decide, by decide, by decide, fun alpha2 ctx => ?_⟩
  rfl

/-! ### C4 -/

/-- C4: for a list of non-default rules split anywhere as `l₁ ++ l₂`, a default
rule `d` inserted at the split gives the same outcome of `GetClientNameByMatch`
as `d` appended at the end. -/
theorem C4_default_position_irrelevant (alpha2 : String → String) (providers : List Provider)
    (ctx : MatchContext) (l₁ l₂ : List ProviderSelectorSwitchRule)
    (d : ProviderSelectorSwitchRule)
    (hnd : ∀ r ∈ l₁ ++ l₂, isDefaultRule r = false)
    (hd : isDefaultRule d = true) :
    GetClientNameByMatch alpha2 (configOf providers (l₁ ++ d :: l₂)) ctx
      = GetClientNameByMatch alpha2 (configOf providers ((l₁ ++ l₂) ++ [d])) ctx := by
  have h1 : ∀ r ∈ l₁, isDefaultRule r = false := fun r hr => hnd r (by simp [hr])
  have h2 : ∀ r ∈ l₂, isDefaultRule r = false := fun r hr => hnd r (by simp [hr])
  have e2 : ∀ d0 : String, GetClientNameByMatch.scan alpha2 ctx l₂ d0
      = match l₂.find? (matchesContext alpha2 ctx) with
        | some r => some r.UseProvider
        | none => fallbackResult d0 := by
    intro d0
    have := scan_nondefault_append alpha2 ctx [] l₂ d0 h2
    simpa [scan_nil] using this
  simp only [GetClientNameByMatch, configOf]
  rw [scan_nondefault_append alpha2 ctx (d :: l₂) l₁ "" h1,
    scan_nondefault_append alpha2 ctx [d] (l₁ ++ l₂) "" hnd,
    scan_cons_default alpha2 ctx d l₂ "" hd, scan_cons_default alpha2 ctx d [] "" hd,
    scan_nil, e2, List.find?_append]
  cases List.find? (matchesContext alpha2 ctx) l₁ <;>
    cases List.find? (matchesContext alpha2 ctx) l₂ <;> simp

theorem C4_witness :
    GetClientNameByMatch sampleAlpha2
        (configOf [] ([ruleHK] ++ ruleDefaultB :: [ruleAppZSG])) ctxSGappZ
      = GetClientNameByMatch sampleAlpha2
        (configOf [] (([ruleHK] ++ [ruleAppZSG]) ++ [ruleDefaultB])) ctxSGappZ
    ∧ GetClientNameByMatch sampleAlpha2
        (configOf [] ([ruleHK] ++ ruleDefaultB :: [ruleAppZSG])) ctxSGappZ = some "ProviderC" :=
  ⟨C4_default_position_irrelevant sampleAlpha2 [] ctxSGappZ [ruleHK] [ruleAppZSG] ruleDefaultB
    (by decide) (by decide), by decide⟩

/-! ### C5 -/

/-- C5: on a rule list without a default rule (the empty list included), if no
rule matches the context, `GetClientNameByMatch` aborts and returns no name. -/
theorem C5_no_default_no_match_aborts (alpha2 : String → String) (c : SMSProviderConfig)
    (ctx : MatchContext)
    (hnodefault : ∀ r ∈ c.ProviderSelector.Switch, isDefaultRule r = false)
    (hnomatch : ∀ r ∈ c.ProviderSelector.Switch, matchesContext alpha2 ctx r = false) :
    GetClientNameByMatch alpha2 c ctx = none := by
  unfold GetClientNameByMatch
  rw [scan_no_default_no_match alpha2 ctx _ "" hnodefault hnomatch]
  rfl

theorem C5_witness :
    GetClientNameByMatch sampleAlpha2 (configOf [] [ruleHK, ruleAppZSG]) ctxUS = none
    ∧ GetClientNameByMatch sampleAlpha2 (configOf [] []) ctxUS = none :=
  ⟨C5_no_default_no_match_aborts sampleAlpha2 (configOf [] [ruleHK, ruleAppZSG]) ctxUS
    (by decide) (by decide), by decide⟩

/-! ### C6 -/

/-- The outcome of `GetClientNameByMatch` on a two-rule list `[r, d]` with `r`
non-default and `d` default. -/
theorem scan_pair (alpha2 : String → String) (ctx : MatchContext)
    (r d : ProviderSelectorSwitchRule)
    (hr : isDefaultRule r = false) (hd : isDefaultRule d = true) :
    GetClientNameByMatch.scan alpha2 ctx [r, d] ""
      = if (ParseMatcher r).Match alpha2 ctx = true then some r.UseProvider
        else if d.UseProvider = "" then none else some d.UseProvider := by
  cases hm : matchesContext alpha2 ctx r with
  | true =>
    have hm2 : (ParseMatcher r).Match alpha2 ctx = true := by
      simpa [matchesContext, hr] using hm
    rw [scan_cons_match alpha2 ctx r _ "" hm, if_pos hm2]
  | false =>
    have hm2 : ¬ ((ParseMatcher r).Match alpha2 ctx = true) := by
      simpa [matchesContext, hr] using hm
    rw [scan_cons_skip alpha2 ctx r _ "" hr hm, scan_cons_default alpha2 ctx d [] "" hd,
      scan_nil, if_neg hm2]
    rfl

/-- C6, as stated, fails: on `[r, d]` with `r` a match-country rule for `HK`
and `d` a default rule whose `use_provider` is empty, a `US` context is an
"other case", yet `d.use_provider` is not returned: the selection aborts. -/
theorem C6_counterexample :
    ¬ (∀ (alpha2 : String → String) (providers : List Provider) (ctx : MatchContext)
        (r d : ProviderSelectorSwitchRule),
        r.Typ = ProviderSelectorSwitchType.MatchPhoneNumberAlpha2 →
        d.Typ = ProviderSelectorSwitchType.Default →
        GetClientNameByMatch alpha2 (configOf providers [r, d]) ctx
          = some (if alpha2 ctx.PhoneNumber = r.PhoneNumberAlpha2 then r.UseProvider
                  else d.UseProvider)) := by
  intro h
  have h1 := h sampleAlpha2 [] ctxUS ruleHK ruleDefaultEmpty rfl rfl
  revert h1
  decide

/-- C6 (amended): on a two-rule list `[r, d]` with `d` a default rule,
a match-country rule `r` wins exactly when the context's country code equals
`r`'s, a match-app-and-country rule `r` exactly when both the app id and the
country code equal `r`'s; when `r` wins the result is `r.use_provider`, and
otherwise the result is `d.use_provider` if that is non-empty and an abort if it
is empty. When the two names differ, the result is `r.use_provider` if and only
if `r` wins. -/
theorem C6_pair_selection (alpha2 : String → String) (providers : List Provider)
    (ctx : MatchContext) (r d : ProviderSelectorSwitchRule)
    (hd : d.Typ = ProviderSelectorSwitchType.Default) :
    (r.Typ = ProviderSelectorSwitchType.MatchPhoneNumberAlpha2 →
      GetClientNameByMatch alpha2 (configOf providers [r, d]) ctx
        = (if alpha2 ctx.PhoneNumber = r.PhoneNumberAlpha2 then some r.UseProvider
           else if d.UseProvider = "" then none else some d.UseProvider)
      ∧ (r.UseProvider ≠ d.UseProvider →
          (GetClientNameByMatch alpha2 (configOf providers [r, d]) ctx = some r.UseProvider
            ↔ alpha2 ctx.PhoneNumber = r.PhoneNumberAlpha2)))
    ∧ (r.Typ = ProviderSelectorSwitchType.MatchAppIDAndPhoneNumberAlpha2 →
      GetClientNameByMatch alpha2 (configOf providers [r, d]) ctx
        = (if ctx.AppID = r.AppID ∧ alpha2 ctx.PhoneNumber = r.PhoneNumberAlpha2
           then some r.UseProvider
           else if d.UseProvider = "" then none else some d.UseProvider)
      ∧ (r.UseProvider ≠ d.UseProvider →
          (GetClientNameByMatch alpha2 (configOf providers [r, d]) ctx = some r.UseProvider
            ↔ (ctx.AppID = r.AppID ∧ alpha2 ctx.PhoneNumber = r.PhoneNumberAlpha2)))) := by
  have hd2 : isDefaultRule d = true := by simp [isDefaultRule, hd]
  constructor
  · intro hr
    have hr2 : isDefaultRule r = false := by simp [isDefaultRule, hr]
    have hm : ((ParseMatcher r).Match alpha2 ctx = true)
        ↔ alpha2 ctx.PhoneNumber = r.PhoneNumberAlpha2 := by
      simp [ParseMatcher, hr, Matcher.Match]
    have e := scan_pair alpha2 ctx r d hr2 hd2
    simp only [hm] at e
    simp only [GetClientNameByMatch, configOf]
    refine ⟨e, fun hne => ?_⟩
    rw [e]
    by_cases hc : alpha2 ctx.PhoneNumber = r.PhoneNumberAlpha2
    · simp [hc]
    · by_cases he : d.UseProvider = ""
      · simp [hc, he]
      · simp [hc, he, Ne.symm hne]
  · intro hr
    have hr2 : isDefaultRule r = false := by simp [isDefaultRule, hr]
    have hm : ((ParseMatcher r).Match alpha2 ctx = true)
        ↔ (ctx.AppID = r.AppID ∧ alpha2 ctx.PhoneNumber = r.PhoneNumberAlpha2) := by
      simp [ParseMatcher, hr, Matcher.Match]
    have e := scan_pair alpha2 ctx r d hr2 hd2
    simp only [hm] at e
    simp only [GetClientNameByMatch, configOf]
    refine ⟨e, fun hne => ?_⟩
    rw [e]
    by_cases hc : ctx.AppID = r.AppID ∧ alpha2 ctx.PhoneNumber = r.PhoneNumberAlpha2
    · simp [hc]
    · by_cases he : d.UseProvider = ""
      · simp [hc, he]
      · simp [hc, he, Ne.symm hne]

theorem C6_witness :
    (GetClientNameByMatch sampleAlpha2 (configOf [] [ruleAppZSG, ruleDefaultB]) ctxSGappZ
        = some "ProviderC")
    ∧ (GetClientNameByMatch sampleAlpha2 (configOf [] [ruleAppZSG, ruleDefaultB]) ctxSGappW
        = some "ProviderB")
    ∧ (GetClientNameByMatch sampleAlpha2 (configOf [] [ruleHK, ruleDefaultB]) ctxHK
        = some "ProviderA")
    ∧ (GetClientNameByMatch sampleAlpha2 (configOf [] [ruleHK, ruleDefaultB]) ctxUS
        = some "ProviderB") :=
  ⟨((C6_pair_selection sampleAlpha2 [] ctxSGappZ ruleAppZSG ruleDefaultB rfl).2 rfl).1,
   ((C6_pair_selection sampleAlpha2 [] ctxSGappW ruleAppZSG ruleDefaultB rfl).2 rfl).1,
   ((C6_pair_selection sampleAlpha2 [] ctxHK ruleHK ruleDefaultB rfl).1 rfl).1,
   ((C6_pair_selection sampleAlpha2 [] ctxUS ruleHK ruleDefaultB rfl).1 rfl).1⟩

/-! ## Properties of the validation -/

theorem IndexFunc.go_eq_neg_one {α : Type} (f : α → Bool) :
    ∀ (s : List α) (i : Nat), IndexFunc.go f s i = -1 ↔ s.any f = false := by
  intro s
  induction s with
  | nil => intro i; simp [IndexFunc.go]
  | cons x xs ih =>
    intro i
    cases hx : f x with
    | true =>
      simp only [IndexFunc.go, hx, if_true, List.any_cons, Bool.true_or]
      constructor
      · intro h; omega
      · intro h; cases h
    | false =>
      simp only [IndexFunc.go, hx, List.any_cons, Bool.false_or]
      simpa using ih (i + 1)

theorem IndexFunc_eq_neg_one {α : Type} (s : List α) (f : α → Bool) :
    IndexFunc s f = -1 ↔ s.any f = false :=
  IndexFunc.go_eq_neg_one f s 0

theorem IndexFunc_name (providers : List Provider) (u : String) :
    IndexFunc providers (fun p => decide (p.Name = u)) = -1 ↔ resolves providers u = false :=
  IndexFunc_eq_neg_one providers _

theorem resolves_eq_false (providers : List Provider) (u : String) :
    resolves providers u = false ↔ ∀ p ∈ providers, p.Name ≠ u := by
  simp [resolves]

theorem resolves_eq_true (providers : List Provider) (u : String) :
    resolves providers u = true ↔ ∃ p ∈ providers, p.Name = u := by
  simp [resolves]

theorem useProvider_loop_eq (providers : List Provider) (ctx : Context) :
    ∀ (rules : List ProviderSelectorSwitchRule) (i : Nat) (errs : List ValidationError),
      ValidateProviderSelectorUseProvider.loop providers ctx i rules errs
        = errs ++ ((rules.enumFrom i).filter
            (fun ir => !resolves providers ir.2.UseProvider)).map
              (fun ir => useProviderError ctx ir.1 ir.2) := by
  intro rules
  induction rules with
  | nil => intro i errs; simp [ValidateProviderSelectorUseProvider.loop]
  | cons r rules ih =>
    intro i errs
    simp only [ValidateProviderSelectorUseProvider.loop, List.enumFrom_cons, List.filter_cons]
    rw [ih]
    cases hres : resolves providers r.UseProvider with
    | true =>
      have hidx : ¬ (IndexFunc providers (fun p => decide (p.Name = r.UseProvider)) = -1) := by
        rw [IndexFunc_name, hres]; simp
      simp [hidx]
    | false =>
      have hidx : IndexFunc providers (fun p => decide (p.Name = r.UseProvider)) = -1 := by
        rw [IndexFunc_name, hres]
      simp [hidx, Context.EmitErrorMessage, Context.Child, useProviderError]

/-! ### C7 -/

/-- C7: `ValidateProviderSelectorUseProvider` appends to the collector one error
per rule whose `use_provider` is the `Name` of no provider, located at
`provider_selector/switch/<i>/use_provider` for the index `i` of that rule, in
index order, and nothing else; it leaves the collector unchanged exactly when
every `use_provider` resolves. -/
theorem C7_use_provider_errors (c : SMSProviderConfig) (ctx : Context)
    (errs : List ValidationError) :
    ValidateProviderSelectorUseProvider c ctx errs
      = errs ++ (c.ProviderSelector.Switch.enum.filter
          (fun ir => decide (∀ p ∈ c.Providers, p.Name ≠ ir.2.UseProvider))).map
            (fun ir =>
              { Location :=
                  ctx.Location ++ ["provider_selector", "switch", Itoa ir.1, "use_provider"],
                Message := "provider " ++ ir.2.UseProvider ++ " not found" })
    ∧ (ValidateProviderSelectorUseProvider c ctx errs = errs
        ↔ ∀ r ∈ c.ProviderSelector.Switch, ∃ p ∈ c.Providers, p.Name = r.UseProvider) := by
  have hf : (fun ir : Nat × ProviderSelectorSwitchRule =>
        decide (∀ p ∈ c.Providers, p.Name ≠ ir.2.UseProvider))
      = (fun ir => !resolves c.Providers ir.2.UseProvider) := by
    funext ir
    cases hres : resolves c.Providers ir.2.UseProvider with
    | true =>
      have := (resolves_eq_true c.Providers ir.2.UseProvider).1 hres
      simpa using this
    | false =>
      have := (resolves_eq_false c.Providers ir.2.UseProvider).1 hres
      simpa using this
  have e := useProvider_loop_eq c.Providers ctx c.ProviderSelector.Switch 0 errs
  constructor
  · rw [hf]; exact e
  · unfold ValidateProviderSelectorUseProvider
    rw [e, List.append_right_eq_self, List.map_eq_nil_iff, List.filter_eq_nil_iff]
    constructor
    · intro h r hr
      obtain ⟨i, hi⟩ : ∃ i, (i, r) ∈ List.enumFrom 0 c.ProviderSelector.Switch := by
        obtain ⟨n, hn, hget⟩ := List.getElem_of_mem hr
        exact ⟨n, by
          rw [List.mk_mem_enumFrom_iff_le_and_getElem?_sub]
          simp [List.getElem?_eq_getElem hn, hget]⟩
      have := h (i, r) hi
      have hres : resolves c.Providers r.UseProvider = true := by simpa using this
      exact (resolves_eq_true _ _).1 hres
    · intro h ir hir
      have hmem : ir.2 ∈ c.ProviderSelector.Switch := by
        have := List.mem_enumFrom (x := ir.2) (i := ir.1) hir
        rw [this.2.2]
        exact List.getElem_mem _
      have hres := (resolves_eq_true _ _).2 (h ir.2 hmem)
      simp [hres]

/-! ### C8 -/

theorem default_loop_eq (ctx : Context) :
    ∀ (rules : List ProviderSelectorSwitchRule) (errs : List ValidationError),
      ValidateProviderSelectorDefault.loop ctx rules errs
        = if ∃ r ∈ rules, r.Typ = ProviderSelectorSwitchType.Default then errs
          else errs ++ [defaultNotFoundError ctx] := by
  intro rules
  induction rules with
  | nil =>
    intro errs
    simp [ValidateProviderSelectorDefault.loop, Context.EmitErrorMessage, Context.Child,
      defaultNotFoundError]
  | cons r rules ih =>
    intro errs
    by_cases hr : r.Typ = ProviderSelectorSwitchType.Default
    · simp [ValidateProviderSelectorDefault.loop, hr]
    · simp [ValidateProviderSelectorDefault.loop, hr, ih]

/-- C8: `ValidateProviderSelectorDefault` appends exactly one error, located at
`provider_selector/switch`, when no rule of the switch list has type `default`,
and appends nothing when some rule has; on the empty rule list it appends the
error. -/
theorem C8_default_rule_check (c : SMSProviderConfig) (ctx : Context)
    (errs : List ValidationError) :
    ValidateProviderSelectorDefault c ctx errs
      = (if ∃ r ∈ c.ProviderSelector.Switch, r.Typ = ProviderSelectorSwitchType.Default
         then errs
         else errs ++ [{ Location := ctx.Location ++ ["provider_selector", "switch"],
                         Message := "provider selector default not found" }])
    ∧ ((ValidateProviderSelectorDefault c ctx errs).length = errs.length + 1
        ↔ ¬ ∃ r ∈ c.ProviderSelector.Switch, r.Typ = ProviderSelectorSwitchType.Default)
    ∧ ((ValidateProviderSelectorDefault c ctx errs).length ≤ errs.length + 1)
    ∧ (ValidateProviderSelectorDefault (configOf c.Providers []) ctx errs
        = errs ++ [{ Location := ctx.Location ++ ["provider_selector", "switch"],
                     Message := "provider selector default not found" }]) := by
  have e := default_loop_eq ctx c.ProviderSelector.Switch errs
  unfold ValidateProviderSelectorDefault
  refine ⟨e, ?_, ?_, ?_⟩
  · rw [e]
    by_cases h : ∃ r ∈ c.ProviderSelector.Switch, r.Typ = ProviderSelectorSwitchType.Default
    · simp [h]
    · simp [h]
  · rw [e]
    by_cases h : ∃ r ∈ c.ProviderSelector.Switch, r.Typ = ProviderSelectorSwitchType.Default
    · simp [h]
    · simp [h]
  · simp [configOf, ValidateProviderSelectorDefault.loop, Context.EmitErrorMessage,
      Context.Child]

/-! ### C9 -/

theorem forall_mem_enumFrom {α : Type} (P : α → Prop) :
    ∀ (l : List α) (n : Nat), (∀ x ∈ l.enumFrom n, P x.2) ↔ ∀ a ∈ l, P a := by
  intro l
  induction l with
  | nil => intro n; simp
  | cons a l ih =>
    intro n
    simp only [List.enumFrom_cons, List.mem_cons, forall_eq_or_imp, ih (n + 1)]

theorem IndexFunc_template (templates : List SendCloudTemplate) (u : String) :
    IndexFunc templates (fun t => decide (t.TemplateID = u)) = -1
      ↔ inCatalog templates u = false :=
  IndexFunc_eq_neg_one templates _

theorem inCatalog_eq_false (templates : List SendCloudTemplate) (u : String) :
    inCatalog templates u = false ↔ ∀ t ∈ templates, t.TemplateID ≠ u := by
  simp [inCatalog]

theorem byLanguages_eq (templates : List SendCloudTemplate) (ctx : Context) (i : Nat) :
    ∀ (bls : List SendCloudTemplateAssignmentByLanguage) (j : Nat)
      (errs : List ValidationError),
      ValidateSendCloudConfig.byLanguages templates
          (ctx.Child ["template_assignments", Itoa i]) j bls errs
        = errs ++ ((bls.enumFrom j).filter (fun jb => !inCatalog templates jb.2.TemplateID)).map
            (fun jb => byLanguageError ctx i jb.1 jb.2) := by
  intro bls
  induction bls with
  | nil => intro j errs; simp [ValidateSendCloudConfig.byLanguages]
  | cons b bls ih =>
    intro j errs
    simp only [ValidateSendCloudConfig.byLanguages, List.enumFrom_cons, List.filter_cons]
    rw [ih]
    cases hres : inCatalog templates b.TemplateID with
    | true =>
      have hidx : ¬ (IndexFunc templates (fun t => decide (t.TemplateID = b.TemplateID)) = -1) := by
        rw [IndexFunc_template, hres]; simp
      simp [hidx]
    | false =>
      have hidx : IndexFunc templates (fun t => decide (t.TemplateID = b.TemplateID)) = -1 := by
        rw [IndexFunc_template, hres]
      simp [hidx, Context.EmitErrorMessage, Context.Child, byLanguageError]

theorem sendCloud_loop_eq (templates : List SendCloudTemplate) (ctx : Context) :
    ∀ (tas : List SendCloudTemplateAssignment) (i : Nat) (errs : List ValidationError),
      ValidateSendCloudConfig.loop templates ctx i tas errs
        = errs ++ (tas.enumFrom i).flatMap
            (fun ia => danglingOfAssignment templates ctx ia.1 ia.2) := by
  intro tas
  induction tas with
  | nil => intro i errs; simp [ValidateSendCloudConfig.loop]
  | cons ta tas ih =>
    intro i errs
    simp only [ValidateSendCloudConfig.loop, List.enumFrom_cons, List.flatMap_cons]
    rw [ih, byLanguages_eq]
    cases hres : inCatalog templates ta.DefaultTemplateID with
    | true =>
      have hidx :
          ¬ (IndexFunc templates (fun t => decide (t.TemplateID = ta.DefaultTemplateID)) = -1) := by
        rw [IndexFunc_template, hres]; simp
      simp [hidx, danglingOfAssignment, hres, List.enum]
    | false =>
      have hidx :
          IndexFunc templates (fun t => decide (t.TemplateID = ta.DefaultTemplateID)) = -1 := by
        rw [IndexFunc_template, hres]
      simp [hidx, danglingOfAssignment, hres, List.enum, Context.EmitErrorMessage,
        Context.Child, defaultTemplateError]

theorem sendCloudConfigs_loop_eq (ctx : Context) :
    ∀ (ps : List Provider) (i : Nat) (errs : List ValidationError),
      sendCloudBlocksPresent ps = true →
      ValidateSendCloudConfigs.loop ctx i ps errs
        = some (errs ++ (ps.enumFrom i).flatMap (fun ip => danglingOfProvider ctx ip.1 ip.2)) := by
  intro ps
  induction ps with
  | nil => intro i errs _; simp [ValidateSendCloudConfigs.loop]
  | cons p ps ih =>
    intro i errs h
    have hp : p.Typ = ProviderTypeSendCloud → p.SendCloud.isSome = true := by
      have := h
      simp only [sendCloudBlocksPresent, List.all_cons, Bool.and_eq_true,
        decide_eq_true_eq] at this
      exact this.1
    have hps : sendCloudBlocksPresent ps = true := by
      have := h
      simp only [sendCloudBlocksPresent, List.all_cons, Bool.and_eq_true] at this
      exact this.2
    simp only [ValidateSendCloudConfigs.loop, List.enumFrom_cons, List.flatMap_cons]
    by_cases ht : p.Typ = ProviderTypeSendCloud
    · obtain ⟨cfg, hcfg⟩ := Option.isSome_iff_exists.1 (hp ht)
      simp only [ht, if_true, hcfg, ValidateSendCloudConfig]
      rw [ih (i + 1) _ hps, sendCloud_loop_eq]
      simp [danglingOfProvider, ht, hcfg, danglingOfBlock, List.enum]
    · simp only [ht, if_false]
      rw [ih (i + 1) _ hps]
      simp [danglingOfProvider, ht]

theorem danglingOfAssignment_eq_nil (templates : List SendCloudTemplate) (ctx : Context)
    (i : Nat) (ta : SendCloudTemplateAssignment) :
    danglingOfAssignment templates ctx i ta = []
      ↔ (inCatalog templates ta.DefaultTemplateID = true
          ∧ ∀ bl ∈ ta.ByLanguages, inCatalog templates bl.TemplateID = true) := by
  unfold danglingOfAssignment
  rw [List.append_eq_nil, List.map_eq_nil_iff, List.filter_eq_nil_iff]
  have h2 : (∀ a ∈ ta.ByLanguages.enum, ¬ ((!inCatalog templates a.2.TemplateID) = true))
      ↔ ∀ bl ∈ ta.ByLanguages, inCatalog templates bl.TemplateID = true := by
    have := forall_mem_enumFrom (fun bl : SendCloudTemplateAssignmentByLanguage =>
      inCatalog templates bl.TemplateID = true) ta.ByLanguages 0
    simpa [List.enum] using this
  rw [h2]
  cases inCatalog templates ta.DefaultTemplateID <;> simp

theorem danglingOfBlock_eq_nil (ctx : Context) (cfg : ProviderConfigSendCloud) :
    danglingOfBlock ctx cfg = []
      ↔ ∀ ta ∈ cfg.TemplateAssignments,
          (inCatalog cfg.Templates ta.DefaultTemplateID = true
            ∧ ∀ bl ∈ ta.ByLanguages, inCatalog cfg.Templates bl.TemplateID = true) := by
  unfold danglingOfBlock
  rw [List.flatMap_eq_nil_iff]
  have := forall_mem_enumFrom (fun ta : SendCloudTemplateAssignment =>
      (inCatalog cfg.Templates ta.DefaultTemplateID = true
        ∧ ∀ bl ∈ ta.ByLanguages, inCatalog cfg.Templates bl.TemplateID = true))
    cfg.TemplateAssignments 0
  rw [← this]
  constructor
  · intro h x hx
    exact (danglingOfAssignment_eq_nil _ ctx x.1 x.2).1 (h x hx)
  · intro h x hx
    exact (danglingOfAssignment_eq_nil _ ctx x.1 x.2).2 (h x hx)

/-- C9: on a configuration whose sendcloud-typed providers carry their
`sendcloud` block, `ValidateSendCloudConfigs` appends, provider by provider in
index order, the errors of the sendcloud-typed providers only: for provider `i`
one error per dangling reference, at
`providers/<i>/sendcloud/template_assignments/<j>/default_template_id` or
`.../template_assignments/<j>/by_languages/<k>/template_id`; and the errors of
a sendcloud provider are non-empty if and only if one of its assignments has a
`default_template_id`, or a `by_languages` entry's `template_id`, that is the
`TemplateID` of no template in that provider's own `Templates`. -/
theorem C9_sendcloud_template_check (c : SMSProviderConfig) (ctx : Context)
    (errs : List ValidationError)
    (hblocks : sendCloudBlocksPresent c.Providers = true) :
    ValidateSendCloudConfigs c ctx errs
      = some (errs ++ c.Providers.enum.flatMap (fun ip => danglingOfProvider ctx ip.1 ip.2))
    ∧ ∀ (i : Nat) (p : Provider) (cfg : ProviderConfigSendCloud),
        c.Providers[i]? = some p → p.Typ = ProviderTypeSendCloud → p.SendCloud = some cfg →
        (danglingOfProvider ctx i p ≠ []
          ↔ ∃ ta ∈ cfg.TemplateAssignments,
              (∀ t ∈ cfg.Templates, t.TemplateID ≠ ta.DefaultTemplateID)
              ∨ ∃ bl ∈ ta.ByLanguages, ∀ t ∈ cfg.Templates, t.TemplateID ≠ bl.TemplateID) := by
  constructor
  · exact sendCloudConfigs_loop_eq ctx c.Providers 0 errs hblocks
  · intro i p cfg _ ht hcfg
    have e : danglingOfProvider ctx i p
        = danglingOfBlock (ctx.Child ["providers", Itoa i, "sendcloud"]) cfg := by
      simp [danglingOfProvider, ht, hcfg]
    rw [e, Ne, danglingOfBlock_eq_nil]
    simp only [not_forall, not_and_or, ← inCatalog_eq_false, Bool.not_eq_true]
    constructor
    · rintro ⟨ta, hta, h⟩
      refine ⟨ta, hta, ?_⟩
      rcases h with h | h
      · exact Or.inl h
      · obtain ⟨bl, hbl, hb⟩ := h
        exact Or.inr ⟨bl, hbl, hb⟩
    · rintro ⟨ta, hta, h⟩
      refine ⟨ta, hta, ?_⟩
      rcases h with h | ⟨bl, hbl, hb⟩
      · exact Or.inl h
      · exact Or.inr ⟨bl, hbl, hb⟩

theorem C9_witness :
    ValidateSendCloudConfigs (configOf sampleProviders [ruleDefaultB]) rootContext []
      = some
        [ { Location := ["providers", "0", "sendcloud", "template_assignments", "0",
                         "default_template_id"],
            Message := "template_id T2 not found" },
          { Location := ["providers", "2", "sendcloud", "template_assignments", "0",
                         "by_languages", "1", "template_id"],
            Message := "template_id T9 not found" } ] :=
  (C9_sendcloud_template_check (configOf sampleProviders [ruleDefaultB]) rootContext []
    (by decide)).1.trans (by decide)

/-! ### C10 -/

theorem useProvider_frame (c : SMSProviderConfig) (ctx : Context)
    (errs : List ValidationError) :
    ValidateProviderSelectorUseProvider c ctx errs
      = errs ++ ValidateProviderSelectorUseProvider c ctx [] := by
  unfold ValidateProviderSelectorUseProvider
  rw [useProvider_loop_eq c.Providers ctx _ 0 errs, useProvider_loop_eq c.Providers ctx _ 0 []]
  simp

theorem default_frame (c : SMSProviderConfig) (ctx : Context)
    (errs : List ValidationError) :
    ValidateProviderSelectorDefault c ctx errs
      = errs ++ ValidateProviderSelectorDefault c ctx [] := by
  unfold ValidateProviderSelectorDefault
  rw [default_loop_eq ctx _ errs, default_loop_eq ctx _ []]
  by_cases h : ∃ r ∈ c.ProviderSelector.Switch, r.Typ = ProviderSelectorSwitchType.Default
  · simp [h]
  · simp [h]

theorem sendCloudConfig_frame (ctx : Context) (cfg : Option ProviderConfigSendCloud)
    (errs : List ValidationError) :
    ValidateSendCloudConfig ctx cfg errs
      = (ValidateSendCloudConfig ctx cfg []).map (fun e => errs ++ e) := by
  cases cfg with
  | none => simp [ValidateSendCloudConfig]
  | some cfg =>
    simp only [ValidateSendCloudConfig, Option.map_some']
    rw [sendCloud_loop_eq _ ctx _ 0 errs, sendCloud_loop_eq _ ctx _ 0 []]
    simp

theorem sendCloudConfigs_loop_frame (ctx : Context) :
    ∀ (ps : List Provider) (i : Nat) (errs : List ValidationError),
      ValidateSendCloudConfigs.loop ctx i ps errs
        = (ValidateSendCloudConfigs.loop ctx i ps []).map (fun e => errs ++ e) := by
  intro ps
  induction ps with
  | nil => intro i errs; simp [ValidateSendCloudConfigs.loop]
  | cons p ps ih =>
    intro i errs
    simp only [ValidateSendCloudConfigs.loop]
    by_cases ht : p.Typ = ProviderTypeSendCloud
    · simp only [ht, if_true]
      rw [sendCloudConfig_frame _ p.SendCloud errs]
      cases hv : ValidateSendCloudConfig (ctx.Child ["providers", Itoa i, "sendcloud"])
          p.SendCloud [] with
      | none => simp
      | some e1 =>
        simp only [Option.map_some']
        rw [ih (i + 1) (errs ++ e1), ih (i + 1) e1]
        cases ValidateSendCloudConfigs.loop ctx (i + 1) ps [] <;> simp
    · simp only [ht, if_false]
      exact ih (i + 1) errs

theorem sendCloudConfigs_frame (c : SMSProviderConfig) (ctx : Context)
    (errs : List ValidationError) :
    ValidateSendCloudConfigs c ctx errs
      = (ValidateSendCloudConfigs c ctx []).map (fun e => errs ++ e) :=
  sendCloudConfigs_loop_frame ctx c.Providers 0 errs

/-- C10: the outcome of `Validate` is the errors already collected, followed by
the errors of the `use_provider` check, then those of the default-rule check,
then those of the SendCloud template check, each check run on its own; no check
is skipped because an earlier one reported. When every sendcloud-typed provider
carries its block the SendCloud check returns, and so does `Validate`. -/
theorem C10_validate_runs_every_check (c : SMSProviderConfig) (ctx : Context)
    (errs : List ValidationError) :
    Validate c ctx errs
      = (ValidateSendCloudConfigs c ctx []).map
          (fun e3 => errs ++ ValidateProviderSelectorUseProvider c ctx []
            ++ ValidateProviderSelectorDefault c ctx [] ++ e3)
    ∧ (sendCloudBlocksPresent c.Providers = true →
        ∃ e3, ValidateSendCloudConfigs c ctx [] = some e3
          ∧ Validate c ctx errs
              = some (errs ++ ValidateProviderSelectorUseProvider c ctx []
                  ++ ValidateProviderSelectorDefault c ctx [] ++ e3)) := by
  have e : Validate c ctx errs
      = (ValidateSendCloudConfigs c ctx []).map
          (fun e3 => errs ++ ValidateProviderSelectorUseProvider c ctx []
            ++ ValidateProviderSelectorDefault c ctx [] ++ e3) := by
    unfold Validate
    simp only []
    rw [sendCloudConfigs_frame, default_frame, useProvider_frame]
  refine ⟨e, fun hblocks => ?_⟩
  have hsc := sendCloudConfigs_loop_eq ctx c.Providers 0 [] hblocks
  refine ⟨_, hsc, ?_⟩
  rw [e]
  unfold ValidateSendCloudConfigs
  rw [hsc]
  rfl

theorem C10_witness :
    sendCloudBlocksPresent brokenConfig.Providers = true
    ∧ Validate brokenConfig rootContext []
      = some
        [ { Location := ["provider_selector", "switch", "0", "use_provider"],
            Message := "provider ProviderA not found" },
          { Location := ["provider_selector", "switch"],
            Message := "provider selector default not found" },
          { Location := ["providers", "0", "sendcloud", "template_assignments", "0",
                         "default_template_id"],
            Message := "template_id T2 not found" },
          { Location := ["providers", "2", "sendcloud", "template_assignments", "0",
                         "by_languages", "1", "template_id"],
            Message := "template_id T9 not found" } ]
    ∧ ∃ e3, ValidateSendCloudConfigs brokenConfig rootContext [] = some e3
        ∧ Validate brokenConfig rootContext []
            = some ([] ++ ValidateProviderSelectorUseProvider brokenConfig rootContext []
                ++ ValidateProviderSelectorDefault brokenConfig rootContext [] ++ e3) :=
  ⟨by decide,
   (C10_validate_runs_every_check brokenConfig rootContext []).1.trans (by decide),
   (C10_validate_runs_every_check brokenConfig rootContext []).2 (by decide)⟩

/-! ## Properties of the AccessYou client and of the HTTP envelope -/

theorem replaceAllRuns_nil_eq_filter (cls : Char → Bool) :
    ∀ (l : List Char) (inMatch : Bool),
      replaceAllRuns cls [] inMatch l = l.filter (fun ch => !cls ch) := by
  intro l
  induction l with
  | nil => intro b; simp [replaceAllRuns]
  | cons ch rest ih =>
    intro b
    cases hc : cls ch <;> cases b <;> simp [replaceAllRuns, hc, ih]

/-! ### C15 -/

/-- C15: `fixPhoneNumber s` is `s` with every plus sign and hyphen deleted and
the other characters kept in order; it contains neither character, applying it
twice is applying it once, and a string without plus sign and hyphen is
unchanged. -/
theorem C15_fixPhoneNumber_deletes_plus_hyphen (s : String) :
    (fixPhoneNumber s).data = s.data.filter (fun ch => decide (ch ≠ '+' ∧ ch ≠ '-'))
    ∧ ('+' ∉ (fixPhoneNumber s).data ∧ '-' ∉ (fixPhoneNumber s).data)
    ∧ fixPhoneNumber (fixPhoneNumber s) = fixPhoneNumber s
    ∧ (('+' ∉ s.data ∧ '-' ∉ s.data) → fixPhoneNumber s = s) := by
  have hf : (fun ch : Char => !plusHyphensClass ch)
      = (fun ch => decide (ch ≠ '+' ∧ ch ≠ '-')) := by
    funext ch
    by_cases h1 : ch = '+' <;> by_cases h2 : ch = '-' <;> simp [plusHyphensClass, h1, h2]
  have e : ∀ t : String, (fixPhoneNumber t).data
      = t.data.filter (fun ch => decide (ch ≠ '+' ∧ ch ≠ '-')) := by
    intro t
    simp only [fixPhoneNumber]
    rw [replaceAllRuns_nil_eq_filter, hf]
  refine ⟨e s, ⟨?_, ?_⟩, ?_, ?_⟩
  · rw [e s]; simp [List.mem_filter]
  · rw [e s]; simp [List.mem_filter]
  · apply String.ext
    rw [e (fixPhoneNumber s), e s, List.filter_filter]
    simp
  · rintro ⟨hp, hm⟩
    apply String.ext
    rw [e s, List.filter_eq_self]
    intro ch hch
    have h1 : ch ≠ '+' := fun h => hp (h ▸ hch)
    have h2 : ch ≠ '-' := fun h => hm (h ▸ hch)
    simp [h1, h2]

theorem C15_witness :
    fixPhoneNumber "+852-2345--6789" = "85223456789"
    ∧ fixPhoneNumber "85223456789" = "85223456789" :=
  ⟨by decide,
   (C15_fixPhoneNumber_deletes_plus_hyphen "85223456789").2.2.2 ⟨by decide, by decide⟩⟩

/-! ### C17 -/

/-- C17: `Code.HTTPStatusCode` returns 200 exactly for `ok`, 400 exactly for
`invalid_request`, and 500 exactly for every other value (`unknown_error`
included); the result is always one of 200, 400, 500. -/
theorem C17_http_status_code (c : Code) :
    (Code.HTTPStatusCode c = 200 ↔ c = "ok")
    ∧ (Code.HTTPStatusCode c = 400 ↔ c = "invalid_request")
    ∧ (Code.HTTPStatusCode c = 500 ↔ (c ≠ "ok" ∧ c ≠ "invalid_request"))
    ∧ Code.HTTPStatusCode "unknown_error" = 500
    ∧ (Code.HTTPStatusCode c = 200 ∨ Code.HTTPStatusCode c = 400 ∨ Code.HTTPStatusCode c = 500) := by
  have hne : ("ok" : String) ≠ "invalid_request" := by decide
  by_cases h1 : c = "ok"
  · subst h1
    simp [Code.HTTPStatusCode, CodeOK, CodeInvalidRequest, CodeUnknownError, StatusOK,
      StatusBadRequest, StatusInternalServerError]
  · by_cases h2 : c = "invalid_request"
    · subst h2
      simp [Code.HTTPStatusCode, CodeOK, CodeInvalidRequest, CodeUnknownError, StatusOK,
        StatusBadRequest, StatusInternalServerError]
    · by_cases h3 : c = "unknown_error"
      · subst h3
        simp [Code.HTTPStatusCode, CodeOK, CodeInvalidRequest, CodeUnknownError, StatusOK,
          StatusBadRequest, StatusInternalServerError]
      · simp [Code.HTTPStatusCode, CodeOK, CodeInvalidRequest, CodeUnknownError, StatusOK,
          StatusBadRequest, StatusInternalServerError, h1, h2, h3]

/-! ### C18 -/

/-- C18: `NewAccessYouClient` returns a client whose `BaseUrl` is
`http://sms.accessyou-anyip.com` when the given base URL is empty and the given
base URL otherwise, never the empty string, and whose other fields are the
corresponding arguments. -/
theorem C18_new_accessyou_client {HTTPClient SlogLogger : Type} (httpClient : HTTPClient)
    (baseUrl accountNo user pwd sender : String) (logger : SlogLogger) :
    (NewAccessYouClient httpClient baseUrl accountNo user pwd sender logger).BaseUrl
      = (if baseUrl = "" then "http://sms.accessyou-anyip.com" else baseUrl)
    ∧ (NewAccessYouClient httpClient baseUrl accountNo user pwd sender logger).BaseUrl ≠ ""
    ∧ (NewAccessYouClient httpClient baseUrl accountNo user pwd sender logger).AccountNo
        = accountNo
    ∧ (NewAccessYouClient httpClient baseUrl accountNo user pwd sender logger).User = user
    ∧ (NewAccessYouClient httpClient baseUrl accountNo user pwd sender logger).Pwd = pwd
    ∧ (NewAccessYouClient httpClient baseUrl accountNo user pwd sender logger).Sender = sender
    ∧ (NewAccessYouClient httpClient baseUrl accountNo user pwd sender logger).Client
        = httpClient
    ∧ (NewAccessYouClient httpClient baseUrl accountNo user pwd sender logger).Logger
        = logger := by
  refine ⟨rfl, ?_, rfl, rfl, rfl, rfl, rfl, rfl⟩
  show (if baseUrl = "" then "http://sms.accessyou-anyip.com" else baseUrl) ≠ ""
  by_cases h : baseUrl = ""
  · rw [if_pos h]; decide
  · rw [if_neg h]; exact h

/-! ### C16 -/

theorem scan_result_mem (alpha2 : String → String) (ctx : MatchContext) (n : String) :
    ∀ (rules : List ProviderSelectorSwitchRule) (d0 : String),
      GetClientNameByMatch.scan alpha2 ctx rules d0 = some n →
      (∃ r ∈ rules, r.UseProvider = n) ∨ (n = d0 ∧ d0 ≠ "") := by
  intro rules
  induction rules with
  | nil =>
    intro d0 h
    rw [scan_nil] at h
    unfold fallbackResult at h
    by_cases hd : d0 = ""
    · simp [hd] at h
    · rw [if_neg hd] at h
      exact Or.inr ⟨(Option.some.inj h).symm, hd⟩
  | cons x rules ih =>
    intro d0 h
    cases hdef : isDefaultRule x with
    | true =>
      rw [scan_cons_default alpha2 ctx x _ d0 hdef] at h
      rcases ih _ h with ⟨r, hr, hn⟩ | ⟨hn, _⟩
      · exact Or.inl ⟨r, by simp [hr], hn⟩
      · exact Or.inl ⟨x, by simp, hn.symm⟩
    | false =>
      cases hm : matchesContext alpha2 ctx x with
      | true =>
        rw [scan_cons_match alpha2 ctx x _ d0 hm] at h
        exact Or.inl ⟨x, by simp, Option.some.inj h⟩
      | false =>
        rw [scan_cons_skip alpha2 ctx x _ d0 hdef hm] at h
        rcases ih _ h with ⟨r, hr, hn⟩ | h2
        · exact Or.inl ⟨r, by simp [hr], hn⟩
        · exact Or.inr h2

theorem useProvider_no_error_resolves (c : SMSProviderConfig) (ctx : Context)
    (h : ValidateProviderSelectorUseProvider c ctx [] = []) :
    ∀ r ∈ c.ProviderSelector.Switch, ∃ p ∈ c.Providers, p.Name = r.UseProvider := by
  intro r hr
  unfold ValidateProviderSelectorUseProvider at h
  rw [useProvider_loop_eq c.Providers ctx _ 0 [], List.nil_append, List.map_eq_nil_iff,
    List.filter_eq_nil_iff] at h
  have h2 := (forall_mem_enumFrom
    (fun r : ProviderSelectorSwitchRule => ¬ ((!resolves c.Providers r.UseProvider) = true))
    c.ProviderSelector.Switch 0).1 h r hr
  have h3 : resolves c.Providers r.UseProvider = true := by simpa using h2
  exact (resolves_eq_true _ _).1 h3

/-- C16: a name returned by `GetClientNameByMatch` is the `use_provider` of a
rule of the list; hence, on a configuration for which
`ValidateProviderSelectorUseProvider` emits no error, a returned name is the
`Name` of a provider of the configuration. -/
theorem C16_selected_name_comes_from_a_rule (alpha2 : String → String)
    (c : SMSProviderConfig) (ctx : MatchContext) (n : String)
    (h : GetClientNameByMatch alpha2 c ctx = some n) :
    (∃ r ∈ c.ProviderSelector.Switch, r.UseProvider = n)
    ∧ ∀ vctx : Context, ValidateProviderSelectorUseProvider c vctx [] = [] →
        ∃ p ∈ c.Providers, p.Name = n := by
  have hmem : ∃ r ∈ c.ProviderSelector.Switch, r.UseProvider = n := by
    rcases scan_result_mem alpha2 ctx n c.ProviderSelector.Switch "" h with hr | ⟨_, hne⟩
    · exact hr
    · exact absurd rfl hne
  refine ⟨hmem, fun vctx hv => ?_⟩
  obtain ⟨r, hr, hn⟩ := hmem
  obtain ⟨p, hp, hpn⟩ := useProvider_no_error_resolves c vctx hv r hr
  exact ⟨p, hp, hpn.trans hn⟩

theorem C16_witness :
    (∃ r ∈ (configOf [twilioProvider "ProviderA", twilioProvider "ProviderB"]
        [ruleHK, ruleDefaultB]).ProviderSelector.Switch, r.UseProvider = "ProviderB")
    ∧ ∃ p ∈ (configOf [twilioProvider "ProviderA", twilioProvider "ProviderB"]
        [ruleHK, ruleDefaultB]).Providers, p.Name = "ProviderB" :=
  ⟨(C16_selected_name_comes_from_a_rule sampleAlpha2
      (configOf [twilioProvider "ProviderA", twilioProvider "ProviderB"] [ruleHK, ruleDefaultB])
      ctxUS "ProviderB" (by decide)).1,
   (C16_selected_name_comes_from_a_rule sampleAlpha2
      (configOf [twilioProvider "ProviderA", twilioProvider "ProviderB"] [ruleHK, ruleDefaultB])
      ctxUS "ProviderB" (by decide)).2 rootContext (by decide)⟩

/-! ### C19 -/

/-- C19: `AccessYouClient.Send` calls the vendor with the client's own
settings, `fixPhoneNumber options.To` as destination and `options.Body` as
body; a vendor error is returned as it is, with no result; otherwise the result
carries the vendor's raw payload as `ClientResponse` and has `Success` true
exactly when the vendor status is `100`. -/
theorem C19_accessyou_send {HTTPClient SlogLogger E : Type}
    (SendSMS : HTTPClient → String → String → String → String → String → String → String →
      Except E (String × SendSMSResponse))
    (n : AccessYouClient HTTPClient SlogLogger) (options : SendOptions) :
    (∀ err : E,
      SendSMS n.Client n.BaseUrl n.AccountNo n.User n.Pwd n.Sender
          (fixPhoneNumber options.To) options.Body = Except.error err →
      AccessYouClient.Send SendSMS n options = Except.error err)
    ∧ (∀ (respData : String) (resp : SendSMSResponse),
      SendSMS n.Client n.BaseUrl n.AccountNo n.User n.Pwd n.Sender
          (fixPhoneNumber options.To) options.Body = Except.ok (respData, resp) →
      ∃ result : SendResult,
        AccessYouClient.Send SendSMS n options = Except.ok result
        ∧ result.ClientResponse = respData
        ∧ (result.Success = true ↔ resp.Status = "100")) := by
  constructor
  · intro err h
    simp [AccessYouClient.Send, h]
  · intro respData resp h
    refine ⟨{ ClientResponse := respData, Success := decide (resp.Status = "100") }, ?_, rfl, ?_⟩
    · simp [AccessYouClient.Send, h]
    · simp

theorem C19_witness :
    AccessYouClient.Send sampleSendSMS
        (NewAccessYouClient () "" "acc" "user" "pwd" "ok" ())
        { To := "+852-2345-6789", Body := "hello" }
      = Except.ok { ClientResponse := "85223456789|hello", Success := true }
    ∧ AccessYouClient.Send sampleSendSMS
        (NewAccessYouClient () "" "acc" "user" "pwd" "ok" ())
        { To := "+852-2345-6789", Body := "" }
      = Except.error "empty body" := by
  constructor
  · obtain ⟨result, hres, hresp, hsucc⟩ :=
      (C19_accessyou_send sampleSendSMS (NewAccessYouClient () "" "acc" "user" "pwd" "ok" ())
        { To := "+852-2345-6789", Body := "hello" }).2 "85223456789|hello" { Status := "100" }
        rfl
    have hs : result.Success = true := hsucc.2 rfl
    rw [hres]
    cases result
    simp_all
  · exact (C19_accessyou_send sampleSendSMS (NewAccessYouClient () "" "acc" "user" "pwd" "ok" ())
      { To := "+852-2345-6789", Body := "" }).1 "empty body" rfl

/-! ### C14 -/

/-- C14: when the selection on the context built from the app id and the
destination returns a name and a client is registered under it,
`SMSService.Send` returns that client's outcome for the unchanged send options,
result or error alike; besides the log entry, the events are one call of
`Send`, on that client, with those options: no retry and no other client. -/
theorem C14_service_send_once {E : Type} (alpha2 : String → String) (s : SMSService E)
    (appID : String) (sendOptions : SendOptions) (clientName : String) (client : RawClient E)
    (hsel : GetClientNameByMatch alpha2 s.RootConfig
      { AppID := appID, PhoneNumber := sendOptions.To } = some clientName)
    (hreg : s.SMSClientMap clientName = some client) :
    SMSService.Send alpha2 s appID sendOptions
      = some (client sendOptions,
          [ServiceEvent.LoggerInfo "selected client" sendOptions.To clientName,
           ServiceEvent.ClientSend clientName sendOptions])
    ∧ ∀ (outcome : Except E SendResult) (events : List ServiceEvent),
        SMSService.Send alpha2 s appID sendOptions = some (outcome, events) →
        outcome = client sendOptions ∧ clientSendCount events = 1 := by
  have e : SMSService.Send alpha2 s appID sendOptions
      = some (client sendOptions,
          [ServiceEvent.LoggerInfo "selected client" sendOptions.To clientName,
           ServiceEvent.ClientSend clientName sendOptions]) := by
    simp [SMSService.Send, hsel, hreg]
  refine ⟨e, fun outcome events h => ?_⟩
  rw [e] at h
  have h2 := Option.some.inj h
  have ho : client sendOptions = outcome := congrArg Prod.fst h2
  have he : [ServiceEvent.LoggerInfo "selected client" sendOptions.To clientName,
      ServiceEvent.ClientSend clientName sendOptions] = events := congrArg Prod.snd h2
  refine ⟨ho.symm, ?_⟩
  rw [← he]
  simp [clientSendCount]

theorem C14_witness :
    SMSService.Send sampleAlpha2 sampleService "X" { To := "+12025550123", Body := "hi" }
      = some (Except.error "rejected",
          [ServiceEvent.LoggerInfo "selected client" "+12025550123" "ProviderB",
           ServiceEvent.ClientSend "ProviderB" { To := "+12025550123", Body := "hi" }]) :=
  (C14_service_send_once sampleAlpha2 sampleService "X" { To := "+12025550123", Body := "hi" }
    "ProviderB" (fun _ => Except.error "rejected") (by decide) rfl).1

/-! ## Properties of the schemas -/

theorem ifThen_type_block (j : Json) (T : String)
    (hv : (Schema.IfThen (Schema.properties [("type", Schema.Const T)])
      (Schema.Required [T])).validate j = true)
    (ht : j.get? "type" = some (Json.str T)) : (j.get? T).isSome = true := by
  cases j with
  | obj members =>
    simp only [Schema.validate, Schema.properties, Schema.allOf, List.map, ht] at hv
    simpa using hv
  | null => simp [Json.get?] at ht
  | bool b => simp [Json.get?] at ht
  | number n => simp [Json.get?] at ht
  | str s => simp [Json.get?] at ht
  | arr items => simp [Json.get?] at ht

/-! ### C13 -/

/-- C13, as stated, fails: the Provider schema accepts a provider of type
`twilio` that carries a `nexmo` block besides its `twilio` block. -/
theorem C13_counterexample :
    ¬ (∀ (sendCloud : Schema) (j : Json) (T : String),
        (SMSProviderConfigSchema.Provider sendCloud).validate j = true →
        j.get? "type" = some (Json.str T) →
        ∀ block ∈ ["twilio", "nexmo", "accessyou", "sendcloud"],
          ((j.get? block).isSome = true ↔ block = T)) := by
  intro h
  have h1 := (h Schema.Accept twoBlockProviderJson "twilio" (by decide) rfl "nexmo"
    (by decide)).1 rfl
  revert h1
  decide

/-- C13 (amended): every provider accepted by the Provider schema whose type is
`T` carries the vendor block `T`, so a provider of type `T` without block `T`
is rejected; blocks of other vendor kinds are not excluded by the schema. -/
theorem C13_provider_carries_block_of_its_type (sendCloud : Schema) (j : Json) (T : String)
    (hT : T ∈ ["twilio", "nexmo", "accessyou", "sendcloud"])
    (hv : (SMSProviderConfigSchema.Provider sendCloud).validate j = true)
    (ht : j.get? "type" = some (Json.str T)) :
    (j.get? T).isSome = true := by
  simp only [SMSProviderConfigSchema.Provider, Schema.allOf, Schema.validate,
    Bool.and_eq_true] at hv
  obtain ⟨_, ⟨h1, h2, h3, h4, _⟩, _⟩ := hv
  simp only [List.mem_cons, List.mem_singleton, List.not_mem_nil, or_false] at hT
  rcases hT with rfl | rfl | rfl | rfl
  · exact ifThen_type_block j _ (by simpa [Schema.validate] using h1) ht
  · exact ifThen_type_block j _ (by simpa [Schema.validate] using h2) ht
  · exact ifThen_type_block j _ (by simpa [Schema.validate] using h3) ht
  · exact ifThen_type_block j _ (by simpa [Schema.validate] using h4) ht


theorem C13_witness :
    ((twilioProviderJson "tw").get? "twilio").isSome = true
    ∧ (SMSProviderConfigSchema.Provider Schema.Accept).validate
        (Json.obj [("name", Json.str "tw"), ("type", Json.str "twilio")]) = false :=
  ⟨C13_provider_carries_block_of_its_type Schema.Accept (twilioProviderJson "tw") "twilio"
    (by decide) (by decide) rfl, by decide⟩

/-! ### C11 -/

/-- C11 fails: a `match_phone_number_alpha2` rule without `phone_number_alpha2`
and a `match_app_id_and_phone_number_alpha2` rule with neither `app_id` nor
`phone_number_alpha2` pass the rule schema, and a configuration holding them
passes the whole validation (schema, decoding, `Validate`) and is returned with
these fields empty. -/
theorem C11_rules_without_their_fields_accepted :
    (ruleJsonWithoutAlpha2.get? "phone_number_alpha2").isNone = true
    ∧ (ruleJsonWithoutAppID.get? "app_id").isNone = true
    ∧ (ruleJsonWithoutAppID.get? "phone_number_alpha2").isNone = true
    ∧ SMSProviderConfigSchema.ProviderSelectorSwitchRule.validate ruleJsonWithoutAlpha2 = true
    ∧ SMSProviderConfigSchema.ProviderSelectorSwitchRule.validate ruleJsonWithoutAppID = true
    ∧ ∀ (sendCloud : Schema) (decodeSendCloud : Json → Option ProviderConfigSendCloud),
        ParseSMSProviderConfigFromYAML sendCloud decodeSendCloud
          (configJson [twilioProviderJson "tw"]
            [ruleJsonWithoutAlpha2, ruleJsonWithoutAppID, ruleJsonDefault])
        = some (configOf [twilioProvider "tw"]
            [ { Typ := ProviderSelectorSwitchType.MatchPhoneNumberAlpha2, UseProvider := "tw",
                PhoneNumberAlpha2 := "", AppID := "" },
              { Typ := ProviderSelectorSwitchType.MatchAppIDAndPhoneNumberAlpha2,
                UseProvider := "tw", PhoneNumberAlpha2 := "", AppID := "" },
              { Typ := ProviderSelectorSwitchType.Default, UseProvider := "tw",
                PhoneNumberAlpha2 := "", AppID := "" } ]) :=
  ⟨by decide, by decide, by decide, by decide, by decide, fun _ _ => rfl⟩

/-! ### C12 -/

theorem Validate_eq_map (c : SMSProviderConfig) (ctx : Context)
    (errs : List ValidationError) :
    Validate c ctx errs
      = (ValidateSendCloudConfigs c ctx []).map
          (fun e3 => errs ++ ValidateProviderSelectorUseProvider c ctx []
            ++ ValidateProviderSelectorDefault c ctx [] ++ e3) := by
  unfold Validate
  simp only []
  rw [sendCloudConfigs_frame, default_frame, useProvider_frame]

/-- What an empty outcome of `Validate` says about the three checks. -/
theorem Validate_no_error (c : SMSProviderConfig) (ctx : Context)
    (h : Validate c ctx [] = some []) :
    ValidateProviderSelectorUseProvider c ctx [] = []
    ∧ ValidateProviderSelectorDefault c ctx [] = []
    ∧ ValidateSendCloudConfigs c ctx [] = some [] := by
  rw [Validate_eq_map] at h
  cases hsc : ValidateSendCloudConfigs c ctx [] with
  | none => rw [hsc] at h; simp at h
  | some e3 =>
    rw [hsc] at h
    simp only [Option.map_some', Option.some.injEq, List.nil_append, List.append_eq_nil] at h
    obtain ⟨⟨h1, h2⟩, h3⟩ := h
    exact ⟨h1, h2, by rw [h3]⟩

theorem sendCloudConfigs_loop_some_blocks (ctx : Context) :
    ∀ (ps : List Provider) (i : Nat) (errs out : List ValidationError),
      ValidateSendCloudConfigs.loop ctx i ps errs = some out →
      sendCloudBlocksPresent ps = true := by
  intro ps
  induction ps with
  | nil => intro i errs out _; rfl
  | cons p ps ih =>
    intro i errs out h
    simp only [ValidateSendCloudConfigs.loop] at h
    by_cases ht : p.Typ = ProviderTypeSendCloud
    · simp only [ht, if_true] at h
      cases hb : p.SendCloud with
      | none => simp [hb, ValidateSendCloudConfig] at h
      | some cfg =>
        simp only [hb, ValidateSendCloudConfig] at h
        have hps := ih _ _ _ h
        simp only [sendCloudBlocksPresent, List.all_cons, Bool.and_eq_true] at hps ⊢
        exact ⟨by simp [hb], hps⟩
    · simp only [ht, if_false] at h
      have hps := ih _ _ _ h
      simp only [sendCloudBlocksPresent, List.all_cons, Bool.and_eq_true] at hps ⊢
      exact ⟨by simp [ht], hps⟩

/-- Whether a provider has a dangling reference does not depend on where it
stands. -/
theorem danglingOfProvider_eq_nil_anywhere (ctx ctx2 : Context) (i k : Nat) (p : Provider)
    (h : danglingOfProvider ctx i p = []) : danglingOfProvider ctx2 k p = [] := by
  unfold danglingOfProvider at h ⊢
  by_cases ht : p.Typ = ProviderTypeSendCloud
  · simp only [ht, if_true] at h ⊢
    cases hb : p.SendCloud with
    | none => rfl
    | some cfg =>
      simp only [hb] at h ⊢
      exact (danglingOfBlock_eq_nil _ cfg).2 ((danglingOfBlock_eq_nil _ cfg).1 h)
  · simp [ht]

theorem sendCloudErrors_eq_nil (ctx : Context) (ps : List Provider) (n : Nat) :
    (ps.enumFrom n).flatMap (fun ip => danglingOfProvider ctx ip.1 ip.2) = []
      ↔ ∀ p ∈ ps, danglingOfProvider ctx 0 p = [] := by
  rw [List.flatMap_eq_nil_iff,
    ← forall_mem_enumFrom (fun p : Provider => danglingOfProvider ctx 0 p = []) ps n]
  constructor
  · intro h x hx
    exact danglingOfProvider_eq_nil_anywhere ctx ctx x.1 0 x.2 (h x hx)
  · intro h x hx
    exact danglingOfProvider_eq_nil_anywhere ctx ctx 0 x.1 x.2 (h x hx)

theorem Parse_some_Validate (sendCloud : Schema)
    (decodeSendCloud : Json → Option ProviderConfigSendCloud) (j : Json)
    (c : SMSProviderConfig)
    (h : ParseSMSProviderConfigFromYAML sendCloud decodeSendCloud j = some c) :
    Validate c rootContext [] = some [] := by
  unfold ParseSMSProviderConfigFromYAML at h
  split at h
  · split at h
    · cases h
    · split at h
      · rename_i config _ hv
        cases h
        exact hv
      · cases h
  · cases h

/-- Repeating a provider of a configuration on which `Validate` emits no error
gives a configuration on which `Validate` emits no error. -/
theorem Validate_repeat_provider (c : SMSProviderConfig) (ctx : Context)
    (h : Validate c ctx [] = some []) (p : Provider) (hp : p ∈ c.Providers) :
    Validate (configOf (c.Providers ++ [p]) c.ProviderSelector.Switch) ctx [] = some [] := by
  obtain ⟨hu, hd, hs⟩ := Validate_no_error c ctx h
  have hres := useProvider_no_error_resolves c ctx hu
  have hblocks : sendCloudBlocksPresent c.Providers = true :=
    sendCloudConfigs_loop_some_blocks ctx c.Providers 0 [] [] hs
  have hblocks2 : sendCloudBlocksPresent (c.Providers ++ [p]) = true := by
    simp only [sendCloudBlocksPresent, List.all_append, List.all_cons, List.all_nil,
      Bool.and_true, Bool.and_eq_true] at hblocks ⊢
    refine ⟨hblocks, ?_⟩
    exact (List.all_eq_true.1 hblocks) p hp
  have hs2 := sendCloudConfigs_loop_eq ctx c.Providers 0 [] hblocks
  have hnil : ∀ q ∈ c.Providers, danglingOfProvider ctx 0 q = [] := by
    apply (sendCloudErrors_eq_nil ctx c.Providers 0).1
    have : ValidateSendCloudConfigs.loop ctx 0 c.Providers [] = some [] := hs
    rw [hs2] at this
    simpa using this
  rw [Validate_eq_map]
  have e1 : ValidateProviderSelectorUseProvider
      (configOf (c.Providers ++ [p]) c.ProviderSelector.Switch) ctx [] = [] := by
    unfold ValidateProviderSelectorUseProvider
    rw [useProvider_loop_eq, List.nil_append, List.map_eq_nil_iff, List.filter_eq_nil_iff]
    apply (forall_mem_enumFrom
      (fun r : ProviderSelectorSwitchRule =>
        ¬ ((!resolves (c.Providers ++ [p]) r.UseProvider) = true))
      c.ProviderSelector.Switch 0).2
    intro r hr
    obtain ⟨q, hq, hqn⟩ := hres r hr
    have : resolves (c.Providers ++ [p]) r.UseProvider = true :=
      (resolves_eq_true _ _).2 ⟨q, by simp [configOf, hq], hqn⟩
    simp [this]
  have e2 : ValidateProviderSelectorDefault
      (configOf (c.Providers ++ [p]) c.ProviderSelector.Switch) ctx [] = [] := hd
  have e3 : ValidateSendCloudConfigs
      (configOf (c.Providers ++ [p]) c.ProviderSelector.Switch) ctx [] = some [] := by
    unfold ValidateSendCloudConfigs
    rw [show (configOf (c.Providers ++ [p]) c.ProviderSelector.Switch).Providers
      = c.Providers ++ [p] from rfl, sendCloudConfigs_loop_eq ctx _ 0 [] hblocks2]
    rw [List.nil_append, (sendCloudErrors_eq_nil ctx (c.Providers ++ [p]) 0).2]
    intro q hq
    rcases List.mem_append.1 hq with hq | hq
    · exact hnil q hq
    · rw [List.mem_singleton.1 hq]; exact hnil p hp
  rw [e1, e2, e3]
  rfl

/-- C12, as stated, fails: a configuration whose two providers share the name
`tw` passes the schema, the decoding and `Validate`. -/
theorem C12_counterexample :
    ¬ (∀ (sendCloud : Schema) (decodeSendCloud : Json → Option ProviderConfigSendCloud)
        (j : Json) (c : SMSProviderConfig),
        ParseSMSProviderConfigFromYAML sendCloud decodeSendCloud j = some c →
        (c.Providers.map (fun p => p.Name)).Nodup) := by
  intro h
  have h1 := h Schema.Accept (fun _ => none)
    (configJson [twilioProviderJson "tw", twilioProviderJson "tw"] [ruleJsonDefault])
    (configOf [twilioProvider "tw", twilioProvider "tw"]
      [{ Typ := ProviderSelectorSwitchType.Default, UseProvider := "tw",
         PhoneNumberAlpha2 := "", AppID := "" }]) rfl
  revert h1
  decide

/-- C12 (amended): provider names of an accepted configuration need not be
distinct. For every configuration accepted by the configuration validation,
every rule's `use_provider` is the `Name` of at least one provider, and
the configuration with one of its providers repeated still passes `Validate`
without error: no check depends on names being unique. -/
theorem C12_accepted_names_resolve_not_unique (sendCloud : Schema)
    (decodeSendCloud : Json → Option ProviderConfigSendCloud) (j : Json)
    (c : SMSProviderConfig)
    (h : ParseSMSProviderConfigFromYAML sendCloud decodeSendCloud j = some c) :
    (∀ r ∈ c.ProviderSelector.Switch, ∃ p ∈ c.Providers, p.Name = r.UseProvider)
    ∧ ∀ p ∈ c.Providers,
        Validate (configOf (c.Providers ++ [p]) c.ProviderSelector.Switch) rootContext []
          = some [] := by
  have hv := Parse_some_Validate sendCloud decodeSendCloud j c h
  exact ⟨useProvider_no_error_resolves c rootContext (Validate_no_error c rootContext hv).1,
    fun p hp => Validate_repeat_provider c rootContext hv p hp⟩

theorem C12_witness :
    (∀ r ∈ (configOf [twilioProvider "tw"]
          [{ Typ := ProviderSelectorSwitchType.Default, UseProvider := "tw",
             PhoneNumberAlpha2 := "", AppID := "" }]).ProviderSelector.Switch,
        ∃ p ∈ (configOf [twilioProvider "tw"]
          [{ Typ := ProviderSelectorSwitchType.Default, UseProvider := "tw",
             PhoneNumberAlpha2 := "", AppID := "" }]).Providers, p.Name = r.UseProvider)
    ∧ ∀ p ∈ (configOf [twilioProvider "tw"]
          [{ Typ := ProviderSelectorSwitchType.Default, UseProvider := "tw",
             PhoneNumberAlpha2 := "", AppID := "" }]).Providers,
        Validate (configOf
          ((configOf [twilioProvider "tw"]
            [{ Typ := ProviderSelectorSwitchType.Default, UseProvider := "tw",
               PhoneNumberAlpha2 := "", AppID := "" }]).Providers ++ [p])
          (configOf [twilioProvider "tw"]
            [{ Typ := ProviderSelectorSwitchType.Default, UseProvider := "tw",
               PhoneNumberAlpha2 := "", AppID := "" }]).ProviderSelector.Switch)
          rootContext [] = some [] :=
  C12_accepted_names_resolve_not_unique Schema.Accept (fun _ => none)
    (configJson [twilioProviderJson "tw"] [ruleJsonDefault])
    (configOf [twilioProvider "tw"]
      [{ Typ := ProviderSelectorSwitchType.Default, UseProvider := "tw",
         PhoneNumberAlpha2 := "", AppID := "" }]) rfl


/-! ### The documents behind `emptyNameConfig` -/

/-- The whole validation accepts the document of `emptyNameConfig`, whether the
provider's `name` is the empty string or is left out. -/
theorem emptyName_documents_accepted (sendCloud : Schema)
    (decodeSendCloud : Json → Option ProviderConfigSendCloud) :
    ParseSMSProviderConfigFromYAML sendCloud decodeSendCloud
        (configJson [twilioProviderJson ""]
          [Json.obj [("type", Json.str "default"), ("use_provider", Json.str "")]])
      = some emptyNameConfig
    ∧ ParseSMSProviderConfigFromYAML sendCloud decodeSendCloud
        (configJson
          [Json.obj
            [("type", Json.str "twilio"),
             ("twilio", Json.obj
                [("sender", Json.str "s"), ("account_sid", Json.str "sid"),
                 ("auth_token", Json.str "token"), ("message_service_sid", Json.str "msid")])]]
          [Json.obj [("type", Json.str "default"), ("use_provider", Json.str "")]])
      = some emptyNameConfig :=
  ⟨rfl, rfl⟩

end SmsGateway
